import Mathlib

/-!
The camera_windows record handler and capture engine listener.

A shallow embedding of `record_handler.cpp` and of
`CaptureEngineListener::OnSample` (`capture_engine_listener.cpp`).

* Machine integers are `Int`/`Nat` with explicit reduction modulo `2^64`
  where the C++ code converts between `int64_t` and `uint64_t`.
* Calls into Media Foundation are external: every call site gets one field in
  an outcome record (`Pipeline`, `Sample`, `Buffer`, `Observer`), and the
  commands issued to the capture engine, the record sink and the observer are
  returned as a log.
* A failing `assert` is modelled by `none`.
-/

namespace camera_windows

/-! ## Status codes and integer conversions -/

/-- Windows `HRESULT`: a signed 32-bit status, negative values are failures. -/
abbrev HRESULT := Int

/-- The status `S_OK`. -/
def S_OK : HRESULT := 0

/-- The status `E_FAIL`, `0x80004005` read as a signed 32-bit integer. -/
def E_FAIL : HRESULT := -2147467259

/-- The macro `SUCCEEDED(hr)`, that is `hr >= 0`. -/
def SUCCEEDED (hr : HRESULT) : Bool := decide (0 ≤ hr)

/-- The macro `FAILED(hr)`, that is `hr < 0`. -/
def FAILED (hr : HRESULT) : Bool := decide (hr < 0)

/-- Conversion of an integer to `uint64_t` (reduction modulo `2^64`). -/
def toU64 (i : Int) : Nat := (i % 2 ^ 64).toNat

/-- Conversion of an unsigned value to `int64_t` (two's complement). -/
def toI64 (n : Nat) : Int :=
  if n % 2 ^ 64 < 2 ^ 63 then ((n % 2 ^ 64 : Nat) : Int) else ((n % 2 ^ 64 : Nat) : Int) - 2 ^ 64

/-! ## Data model -/

/-- Modelled from the spec: the enum `RecordState` of the missing header
`record_handler.h`; the four enumerators are the ones `record_handler.cpp` uses. -/
inductive RecordState
  | kNotStarted
  | kStarting
  | kRunning
  | kStopping
  deriving DecidableEq, Repr

/-- Modelled from the spec: the enum `RecordingType` of the missing header
`record_handler.h`; the three enumerators are the ones `record_handler.cpp` uses. -/
inductive RecordingType
  | kNone
  | kContinuous
  | kTimed
  deriving DecidableEq, Repr

/-- Subtype identifiers of a media type. Only the two formats the record handler
writes are distinguished; every other GUID is `other`. -/
inductive GUID
  | MFVideoFormat_ARGB32
  | MFVideoFormat_H264
  | other (id : Nat)
  deriving DecidableEq, Repr

/-- The attributes of an `IMFMediaType` the record handler reads or writes. -/
structure MediaType where
  subtype : GUID
  all_samples_independent : Bool
  frame_width : Nat
  frame_height : Nat
  deriving DecidableEq, Repr

/-- Modelled from the spec: the member `media_settings_` (declared in the missing
header `record_handler.h`), with the three members `InitRecordSink` reads. -/
structure RecordSettings where
  fps : Option Int
  video_bitrate : Option Int
  record_audio_ : Bool
  deriving DecidableEq, Repr

/-- Modelled from the spec: the data members of class `RecordHandler`, declared in
the missing header `record_handler.h`. Names are those used in `record_handler.cpp`;
`max_video_duration_ms_` and `recording_start_timestamp_us_` are `int64_t` (they are
compared with `0` and hold `-1`), `recording_duration_us_` is `uint64_t`. The two
`ComPtr` members are modelled by what the code observes of them: whether
`record_sink_` is non-null, and the media type `video_record_media_type_` points to. -/
structure RecordHandler where
  media_settings_ : RecordSettings
  max_video_duration_ms_ : Int
  recording_start_timestamp_us_ : Int
  recording_duration_us_ : Nat
  file_path_ : String
  recording_state_ : RecordState
  type_ : RecordingType
  record_sink_ : Bool
  video_record_media_type_ : Option MediaType

/-- The outcome of every external call `StartRecord`, `InitRecordSink`, the two
`BuildMediaTypeFor...` helpers and `StopRecord` make, one field per call site. -/
structure Pipeline where
  GetSink : HRESULT
  As : HRESULT
  RemoveAllStreams : HRESULT
  video_MFCreateMediaType : HRESULT
  video_CopyAllItems : HRESULT
  video_SetGUID : HRESULT
  video_SetUINT32 : HRESULT
  video_AddStream : HRESULT
  audio_MFCreateAttributes : HRESULT
  audio_SetUINT32 : HRESULT
  MFTranscodeGetAudioOutputAvailableTypes : HRESULT
  GetElement : HRESULT
  QueryInterface : HRESULT
  GetElementCount : HRESULT
  mt_count : Nat
  audio_MFCreateMediaType : HRESULT
  audio_CopyAllItems : HRESULT
  audio_AddStream : HRESULT
  SetSampleCallback : HRESULT
  SetOutputFileName : HRESULT
  StartRecord : HRESULT
  StopRecord : HRESULT

/-- Commands issued to the capture engine and to the record sink. -/
inductive Command
  | GetSink
  | RemoveAllStreams
  | SetFrameRate (numerator denominator : Int)
  | SetVideoBitrate (bitrate : Int)
  | AddVideoStream
  | AddAudioStream
  | SetSampleCallback
  | SetOutputFileName (file_path : String)
  | StartRecord
  | StopRecord (finalize flush_unprocessed_samples : Bool)
  deriving DecidableEq, Repr

/-! ## `record_handler.cpp` -/

/-- `BuildMediaTypeForVideoCapture`: clones the source type, overrides the subtype
and marks all samples independent. The second component is the value written to
the out-parameter, `none` when the function returns before `CopyTo`. -/
def BuildMediaTypeForVideoCapture (src_media_type : Option MediaType) (capture_format : GUID)
    (pl : Pipeline) : Option (HRESULT × Option MediaType) :=
  match src_media_type with
  | none => none
  | some src =>
    if FAILED pl.video_MFCreateMediaType then some (pl.video_MFCreateMediaType, none)
    else if FAILED pl.video_CopyAllItems then some (pl.video_CopyAllItems, none)
    else if FAILED pl.video_SetGUID then some (pl.video_SetGUID, none)
    else if FAILED pl.video_SetUINT32 then some (pl.video_SetUINT32, none)
    else some (S_OK, some { src with subtype := capture_format, all_samples_independent := true })

/-- `BuildMediaTypeForAudioCapture`: negotiation of the low-latency AAC output
format; only the returned status is modelled (the media type goes to `AddStream`). -/
def BuildMediaTypeForAudioCapture (pl : Pipeline) : HRESULT :=
  if FAILED pl.audio_MFCreateAttributes then pl.audio_MFCreateAttributes
  else if FAILED pl.audio_SetUINT32 then pl.audio_SetUINT32
  else if FAILED pl.MFTranscodeGetAudioOutputAvailableTypes then
    pl.MFTranscodeGetAudioOutputAvailableTypes
  else if FAILED pl.GetElement then pl.GetElement
  else if FAILED pl.QueryInterface then pl.QueryInterface
  else if FAILED pl.GetElementCount then pl.GetElementCount
  else if pl.mt_count = 0 then E_FAIL
  else if FAILED pl.audio_MFCreateMediaType then pl.audio_MFCreateMediaType
  else if FAILED pl.audio_CopyAllItems then pl.audio_CopyAllItems
  else pl.audio_CopyAllItems

/-- The frame-rate override of `InitRecordSink` (lines 192-195): `none` when the
assertion `fps > 0` fails, otherwise the commands issued. -/
def applyFrameRate (s : RecordSettings) : Option (List Command) :=
  match s.fps with
  | none => some []
  | some v => if 0 < v then some [Command.SetFrameRate v 1] else none

/-- The bitrate override of `InitRecordSink` (lines 197-201). -/
def applyVideoBitrate (s : RecordSettings) : Option (List Command) :=
  match s.video_bitrate with
  | none => some []
  | some v => if 0 < v then some [Command.SetVideoBitrate v] else none

/-- The tail of `InitRecordSink` from the audio block on (lines 211-236); `hr` is
the status of the video `AddStream`, `log` the commands issued so far. -/
def InitRecordSink_finish (h : RecordHandler) (image_stream_callback_handler : Bool)
    (pl : Pipeline) (hr : HRESULT) (log : List Command) : HRESULT × RecordHandler × List Command :=
  if image_stream_callback_handler then
    (pl.SetSampleCallback, h, log ++ [Command.SetSampleCallback])
  else if h.media_settings_.record_audio_ then
    let audio_capture_hr := BuildMediaTypeForAudioCapture pl
    let hr2 := if SUCCEEDED audio_capture_hr then pl.audio_AddStream else hr
    let log2 := if SUCCEEDED audio_capture_hr then log ++ [Command.AddAudioStream] else log
    if FAILED hr2 then (hr2, h, log2)
    else (pl.SetOutputFileName, h, log2 ++ [Command.SetOutputFileName h.file_path_])
  else
    (pl.SetOutputFileName, h, log ++ [Command.SetOutputFileName h.file_path_])

/-- `RecordHandler::InitRecordSink`. Returns the status, the handler afterwards and
the commands issued; `none` when an assertion fails. The frame-rate and bitrate
overrides go to `video_record_media_type` (no trailing underscore) and their status
is ignored, so they are logged and leave the member `video_record_media_type_` as
`BuildMediaTypeForVideoCapture` wrote it. `capture_sink.As(&record_sink_)` releases
`record_sink_` and stores the queried interface, null on failure. -/
def InitRecordSink (h : RecordHandler) (capture_engine : Bool)
    (base_media_type : Option MediaType) (image_stream_callback_handler : Bool)
    (pl : Pipeline) : Option (HRESULT × RecordHandler × List Command) :=
  if h.file_path_ = "" ∨ capture_engine = false ∨ base_media_type = none then none
  else if h.record_sink_ = true ∧ image_stream_callback_handler = false then
    some (pl.SetOutputFileName,
      if FAILED pl.SetOutputFileName then { h with record_sink_ := false } else h,
      [Command.SetOutputFileName h.file_path_])
  else if FAILED pl.GetSink then some (pl.GetSink, h, [Command.GetSink])
  else if FAILED pl.As then some (pl.As, { h with record_sink_ := false }, [Command.GetSink])
  else
    let h1 := { h with record_sink_ := true }
    if FAILED pl.RemoveAllStreams then
      some (pl.RemoveAllStreams, h1, [Command.GetSink, Command.RemoveAllStreams])
    else
      match BuildMediaTypeForVideoCapture base_media_type
          (if image_stream_callback_handler then GUID.MFVideoFormat_ARGB32
           else GUID.MFVideoFormat_H264) pl with
      | none => none
      | some (hr, none) => some (hr, h1, [Command.GetSink, Command.RemoveAllStreams])
      | some (hr, some mt) =>
        let h2 := { h1 with video_record_media_type_ := some mt }
        if FAILED hr then some (hr, h2, [Command.GetSink, Command.RemoveAllStreams])
        else
          match applyFrameRate h.media_settings_, applyVideoBitrate h.media_settings_ with
          | some l1, some l2 =>
            let log := [Command.GetSink, Command.RemoveAllStreams] ++ l1 ++ l2 ++
              [Command.AddVideoStream]
            if FAILED pl.video_AddStream then some (pl.video_AddStream, h2, log)
            else some (InitRecordSink_finish h2 image_stream_callback_handler pl
              pl.video_AddStream log)
          | _, _ => none

/-- The five assignments that open `RecordHandler::StartRecord` (lines 248-252). -/
def StartRecord_assign (h : RecordHandler) (file_path : String) (max_duration : Int) :
    RecordHandler :=
  { h with
    type_ := if max_duration < 0 then RecordingType.kContinuous else RecordingType.kTimed
    max_video_duration_ms_ := max_duration
    file_path_ := file_path
    recording_start_timestamp_us_ := -1
    recording_duration_us_ := 0 }

/-- `RecordHandler::StartRecord`. -/
def StartRecord (h : RecordHandler) (file_path : String) (max_duration : Int)
    (capture_engine : Bool) (base_media_type : Option MediaType)
    (image_stream_callback_handler : Bool) (pl : Pipeline) :
    Option (HRESULT × RecordHandler × List Command) :=
  if file_path = "" ∨ capture_engine = false ∨ base_media_type = none then none
  else
    match InitRecordSink (StartRecord_assign h file_path max_duration) capture_engine
        base_media_type image_stream_callback_handler pl with
    | none => none
    | some (hr, h1, log) =>
      if FAILED hr then some (hr, h1, log)
      else some (pl.StartRecord, { h1 with recording_state_ := RecordState.kStarting },
        log ++ [Command.StartRecord])

/-- `RecordHandler::StopRecord`. -/
def StopRecord (h : RecordHandler) (pl : Pipeline) : HRESULT × RecordHandler × List Command :=
  if h.recording_state_ = RecordState.kRunning then
    (pl.StopRecord, { h with recording_state_ := RecordState.kStopping },
      [Command.StopRecord true false])
  else (E_FAIL, h, [])

/-- `RecordHandler::OnRecordStarted`. -/
def OnRecordStarted (h : RecordHandler) : RecordHandler :=
  if h.recording_state_ = RecordState.kStarting then
    { h with recording_state_ := RecordState.kRunning }
  else h

/-- `RecordHandler::OnRecordStopped`. -/
def OnRecordStopped (h : RecordHandler) : RecordHandler :=
  if h.recording_state_ = RecordState.kStopping then
    { h with
      file_path_ := ""
      recording_start_timestamp_us_ := -1
      recording_duration_us_ := 0
      max_video_duration_ms_ := -1
      video_record_media_type_ := none
      recording_state_ := RecordState.kNotStarted
      type_ := RecordingType.kNone }
  else h

/-- `RecordHandler::UpdateRecordingTime`. The `uint64_t` argument is stored in the
`int64_t` start timestamp when that is negative; the duration is the `uint64_t`
difference of the argument and the start timestamp converted to `uint64_t`. -/
def UpdateRecordingTime (h : RecordHandler) (timestamp : Nat) : RecordHandler :=
  let start := if h.recording_start_timestamp_us_ < 0 then toI64 timestamp
    else h.recording_start_timestamp_us_
  { h with
    recording_start_timestamp_us_ := start
    recording_duration_us_ := toU64 ((timestamp : Int) - (toU64 start : Int)) }

/-- `RecordHandler::ShouldStopTimedRecording`; the product is a `uint64_t` product. -/
def ShouldStopTimedRecording (h : RecordHandler) : Bool :=
  decide (h.type_ = RecordingType.kTimed) &&
  decide (h.recording_state_ = RecordState.kRunning) &&
  decide (h.max_video_duration_ms_ > 0) &&
  decide (h.recording_duration_us_ ≥ (toU64 h.max_video_duration_ms_ * 1000) % 2 ^ 64)

/-! ## `capture_engine_listener.cpp` -/

/-- The outcome of the calls `OnSample` makes on the contiguous `IMFMediaBuffer`. -/
structure Buffer where
  Lock : HRESULT
  current_length : Nat
  Unlock : HRESULT

/-- The outcome of the calls `OnSample` makes on the `IMFSample`: `sample_time` is
the `LONGLONG` that `GetSampleTime` stores in `raw_time_stamp`, `buffer` the
pointer `ConvertToContiguousBuffer` stores (`none` for a null pointer). -/
structure Sample where
  sample_time : Int
  ConvertToContiguousBuffer : HRESULT
  buffer : Option Buffer

/-- The outcome of the calls `OnSample` makes on its observer (the capture
controller, which is not part of these sources). -/
structure Observer where
  IsReadyForSample : Bool

/-- Calls `OnSample` makes on the observer and on the buffer, in order. -/
inductive Call
  | UpdateCaptureTime (capture_time_us : Nat)
  | IsReadyForSample
  | ConvertToContiguousBuffer
  | Lock
  | UpdateBuffer (data_length : Nat)
  | Unlock
  deriving DecidableEq, Repr

/-- `CaptureEngineListener::OnSample`: the returned status and the calls made.
`raw_time_stamp / 10` is the truncating `LONGLONG` division, converted to
`uint64_t`. -/
def OnSample (observer_ : Option Observer) (sample : Option Sample) : HRESULT × List Call :=
  match observer_, sample with
  | some obs, some s =>
    let t := Call.UpdateCaptureTime (toU64 (Int.tdiv s.sample_time 10))
    if obs.IsReadyForSample = false then (S_OK, [t, Call.IsReadyForSample])
    else
      match s.buffer with
      | some b =>
        if SUCCEEDED s.ConvertToContiguousBuffer then
          if SUCCEEDED b.Lock then
            (b.Unlock, [t, Call.IsReadyForSample, Call.ConvertToContiguousBuffer, Call.Lock,
              Call.UpdateBuffer b.current_length, Call.Unlock])
          else
            (b.Unlock, [t, Call.IsReadyForSample, Call.ConvertToContiguousBuffer, Call.Lock,
              Call.Unlock])
        else
          (s.ConvertToContiguousBuffer, [t, Call.IsReadyForSample, Call.ConvertToContiguousBuffer])
      | none =>
        (s.ConvertToContiguousBuffer, [t, Call.IsReadyForSample, Call.ConvertToContiguousBuffer])
  | _, _ => (S_OK, [])

/-! ## Operations of the record handler as a transition system -/

/-- One call on a `RecordHandler`, with its arguments and the outcome of the
external calls it makes. -/
inductive Op
  | StartRecord (file_path : String) (max_duration : Int) (capture_engine : Bool)
      (base_media_type : Option MediaType) (image_stream_callback_handler : Bool) (pl : Pipeline)
  | StopRecord (pl : Pipeline)
  | OnRecordStarted
  | OnRecordStopped
  | UpdateRecordingTime (timestamp : Nat)

/-- The handler after one operation; `none` when an assertion of `StartRecord` or
`InitRecordSink` fails. -/
def Op.apply (h : RecordHandler) : Op → Option RecordHandler
  | Op.StartRecord file_path max_duration capture_engine base_media_type cb pl =>
    (camera_windows.StartRecord h file_path max_duration capture_engine base_media_type cb
      pl).map (fun r => r.2.1)
  | Op.StopRecord pl => some (camera_windows.StopRecord h pl).2.1
  | Op.OnRecordStarted => some (camera_windows.OnRecordStarted h)
  | Op.OnRecordStopped => some (camera_windows.OnRecordStopped h)
  | Op.UpdateRecordingTime timestamp => some (camera_windows.UpdateRecordingTime h timestamp)

/-- The assertions of `StartRecord` and `InitRecordSink` for one operation: a
non-empty path, a capture engine and a base media type, and positive frame-rate and
bitrate settings where they are set. Every other operation asserts nothing. -/
def Op.asserts (h : RecordHandler) : Op → Prop
  | Op.StartRecord file_path _ capture_engine base_media_type _ _ =>
    file_path ≠ "" ∧ capture_engine = true ∧ base_media_type ≠ none ∧
    (∀ v, h.media_settings_.fps = some v → 0 < v) ∧
    (∀ v, h.media_settings_.video_bitrate = some v → 0 < v)
  | _ => True

/-- The handler after a sequence of operations. -/
def run (h : RecordHandler) : List Op → Option RecordHandler
  | [] => some h
  | op :: ops => (op.apply h).bind (fun h1 => run h1 ops)

/-- The successor of a lifecycle state along
`NotStarted → Starting → Running → Stopping → NotStarted`. -/
def RecordState.next : RecordState → RecordState
  | RecordState.kNotStarted => RecordState.kStarting
  | RecordState.kStarting => RecordState.kRunning
  | RecordState.kRunning => RecordState.kStopping
  | RecordState.kStopping => RecordState.kNotStarted

/-- A handler as the constructor of `RecordHandler` leaves it: idle, nothing latched. -/
def RecordHandler.init (s : RecordSettings) : RecordHandler :=
  { media_settings_ := s
    max_video_duration_ms_ := -1
    recording_start_timestamp_us_ := -1
    recording_duration_us_ := 0
    file_path_ := ""
    recording_state_ := RecordState.kNotStarted
    type_ := RecordingType.kNone
    record_sink_ := false
    video_record_media_type_ := none }

/-- A pipeline in which every external call returns `S_OK`. -/
def Pipeline.ok : Pipeline :=
  { GetSink := S_OK, As := S_OK, RemoveAllStreams := S_OK, video_MFCreateMediaType := S_OK
    video_CopyAllItems := S_OK, video_SetGUID := S_OK, video_SetUINT32 := S_OK
    video_AddStream := S_OK, audio_MFCreateAttributes := S_OK, audio_SetUINT32 := S_OK
    MFTranscodeGetAudioOutputAvailableTypes := S_OK, GetElement := S_OK, QueryInterface := S_OK
    GetElementCount := S_OK, mt_count := 1, audio_MFCreateMediaType := S_OK
    audio_CopyAllItems := S_OK, audio_AddStream := S_OK, SetSampleCallback := S_OK
    SetOutputFileName := S_OK, StartRecord := S_OK, StopRecord := S_OK }

/-- A source media type used in the examples (NV12-like, 640 x 480). -/
def MediaType.example : MediaType :=
  { subtype := GUID.other 0, all_samples_independent := false, frame_width := 640
    frame_height := 480 }

/-- Settings used in the examples: no overrides, audio recorded. -/
def RecordSettings.example : RecordSettings :=
  { fps := none, video_bitrate := none, record_audio_ := true }

/-- A handler in the middle of a timed recording of `out.mp4` (limit 5000 ms, start
latched at 100 us, 2000 us recorded) in the given lifecycle state. -/
def RecordHandler.session (st : RecordState) : RecordHandler :=
  { media_settings_ := RecordSettings.example
    max_video_duration_ms_ := 5000
    recording_start_timestamp_us_ := 100
    recording_duration_us_ := 2000
    file_path_ := "out.mp4"
    recording_state_ := st
    type_ := RecordingType.kTimed
    record_sink_ := true
    video_record_media_type_ := some { MediaType.example with
      subtype := GUID.MFVideoFormat_H264, all_samples_independent := true } }

/-- Two handlers that differ at most in `record_sink_` and `video_record_media_type_`. -/
def sameSession (h h1 : RecordHandler) : Prop :=
  h1.media_settings_ = h.media_settings_ ∧
  h1.max_video_duration_ms_ = h.max_video_duration_ms_ ∧
  h1.recording_start_timestamp_us_ = h.recording_start_timestamp_us_ ∧
  h1.recording_duration_us_ = h.recording_duration_us_ ∧
  h1.file_path_ = h.file_path_ ∧
  h1.recording_state_ = h.recording_state_ ∧
  h1.type_ = h.type_

/-- Whether an operation is a `StartRecord`. -/
def Op.isStartRecord : Op → Bool
  | Op.StartRecord _ _ _ _ _ _ => true
  | _ => false

/-- Whether an operation can reset the timing fields: `StartRecord` and
`OnRecordStopped` are the two functions that assign `-1` to the start timestamp. -/
def Op.resets : Op → Bool
  | Op.StartRecord _ _ _ _ _ _ => true
  | Op.OnRecordStopped => true
  | _ => false

/-- The first timestamp in a sequence of operations that `UpdateRecordingTime`
stores as a non-negative `int64_t`, as stored. -/
def firstLatch : List Op → Option Int
  | [] => none
  | Op.UpdateRecordingTime timestamp :: ops =>
    if 0 ≤ toI64 timestamp then some (toI64 timestamp) else firstLatch ops
  | _ :: ops => firstLatch ops

/-- A pipeline in which the capture engine has no record sink: `GetSink` fails. -/
def Pipeline.noSink : Pipeline := { Pipeline.ok with GetSink := E_FAIL }

/-- A pipeline without an audio encoder: the enumeration of the available audio
output types fails with `E_FAIL`, every other call succeeds. -/
def Pipeline.noAudio : Pipeline :=
  { Pipeline.ok with MFTranscodeGetAudioOutputAvailableTypes := E_FAIL }

/-- The timestamp an operation passes to `UpdateRecordingTime`, if it is one. -/
def Op.timestamp : Op → Option Nat
  | Op.UpdateRecordingTime timestamp => some timestamp
  | _ => none

/-- The timestamp of the last `UpdateRecordingTime` in a sequence of operations. -/
def lastUpdate : List Op → Option Nat
  | [] => none
  | op :: ops =>
    match lastUpdate ops with
    | some t => some t
    | none => op.timestamp

/-- A buffer whose `Lock` fails with `E_FAIL` and whose `Unlock` returns `S_OK`. -/
def Buffer.lockFails : Buffer := { Lock := E_FAIL, current_length := 16, Unlock := S_OK }

/-- A sample at 5 us (50 ticks of 100 ns) whose buffer cannot be locked. -/
def Sample.lockFails : Sample :=
  { sample_time := 50, ConvertToContiguousBuffer := S_OK, buffer := some Buffer.lockFails }

/-! ## Conversions -/

theorem toU64_lt (i : Int) : toU64 i < 2 ^ 64 := by
  unfold toU64
  have h1 : (0 : Int) ≤ i % 2 ^ 64 := Int.emod_nonneg _ (by norm_num)
  have h2 : i % 2 ^ 64 < 2 ^ 64 := Int.emod_lt_of_pos _ (by norm_num)
  omega

theorem toU64_of_range (i : Int) (h0 : 0 ≤ i) (h1 : i < 2 ^ 64) : (toU64 i : Int) = i := by
  unfold toU64
  rw [Int.emod_eq_of_lt h0 h1]
  omega

theorem toU64_toI64 (n : Nat) : toU64 (toI64 n) = n % 2 ^ 64 := by
  have hn : n % 2 ^ 64 < 2 ^ 64 := Nat.mod_lt _ (by norm_num)
  unfold toU64 toI64
  split
  · rw [Int.emod_eq_of_lt (by omega) (by omega)]
    omega
  · have : (((n % 2 ^ 64 : Nat) : Int) - 2 ^ 64) % 2 ^ 64 = ((n % 2 ^ 64 : Nat) : Int) := by
      rw [Int.sub_emod, Int.emod_self, sub_zero, Int.emod_emod_of_dvd _ (dvd_refl _)]
      exact Int.emod_eq_of_lt (by omega) (by omega)
    rw [this]
    omega

theorem toI64_nonneg_iff (n : Nat) : 0 ≤ toI64 n ↔ n % 2 ^ 64 < 2 ^ 63 := by
  have hn : n % 2 ^ 64 < 2 ^ 64 := Nat.mod_lt _ (by norm_num)
  unfold toI64
  split <;> omega

theorem toI64_of_lt (n : Nat) (h : n < 2 ^ 63) : toI64 n = n := by
  unfold toI64
  have : n % 2 ^ 64 = n := Nat.mod_eq_of_lt (by omega)
  rw [this, if_pos h]

/-! ## Sink configuration touches neither the lifecycle state nor the session fields -/

theorem sameSession_refl (h : RecordHandler) : sameSession h h :=
  ⟨rfl, rfl, rfl, rfl, rfl, rfl, rfl⟩

theorem applyFrameRate_some (s : RecordSettings) (hs : ∀ v, s.fps = some v → 0 < v) :
    ∃ l, applyFrameRate s = some l ∧ Command.StartRecord ∉ l ∧ Command.AddAudioStream ∉ l := by
  unfold applyFrameRate
  cases hf : s.fps with
  | none => exact ⟨[], rfl, by simp, by simp⟩
  | some v => exact ⟨[Command.SetFrameRate v 1], by simp [hs v hf], by simp, by simp⟩

theorem applyVideoBitrate_some (s : RecordSettings)
    (hs : ∀ v, s.video_bitrate = some v → 0 < v) :
    ∃ l, applyVideoBitrate s = some l ∧ Command.StartRecord ∉ l ∧
      Command.AddAudioStream ∉ l := by
  unfold applyVideoBitrate
  cases hf : s.video_bitrate with
  | none => exact ⟨[], rfl, by simp, by simp⟩
  | some v => exact ⟨[Command.SetVideoBitrate v], by simp [hs v hf], by simp, by simp⟩

theorem InitRecordSink_finish_sameSession (h0 h : RecordHandler) (hs : sameSession h0 h)
    (cb : Bool) (pl : Pipeline) (hr : HRESULT) (log : List Command)
    (hlog : Command.StartRecord ∉ log) :
    sameSession h0 (InitRecordSink_finish h cb pl hr log).2.1 ∧
      Command.StartRecord ∉ (InitRecordSink_finish h cb pl hr log).2.2 := by
  unfold InitRecordSink_finish
  dsimp only
  split_ifs <;> exact ⟨hs, by simpa using hlog⟩

theorem FAILED_S_OK : FAILED S_OK = false := by decide

theorem SUCCEEDED_eq_not_FAILED (hr : HRESULT) : SUCCEEDED hr = !FAILED hr := by
  unfold SUCCEEDED FAILED
  by_cases h : hr < 0
  · have : ¬ (0 ≤ hr) := not_le.mpr h
    simp [h, this]
  · have : 0 ≤ hr := not_lt.mp h
    simp [h, this]

/-- The video media type is built (status `S_OK`) exactly when none of the four
calls fails; otherwise the status of the first failing call is returned. -/
theorem BuildMediaTypeForVideoCapture_cases (m : MediaType) (fmt : GUID) (pl : Pipeline) :
    (∃ hr, BuildMediaTypeForVideoCapture (some m) fmt pl = some (hr, none) ∧ FAILED hr = true) ∨
    BuildMediaTypeForVideoCapture (some m) fmt pl =
      some (S_OK, some { m with subtype := fmt, all_samples_independent := true }) := by
  unfold BuildMediaTypeForVideoCapture
  dsimp only
  split_ifs with h1 h2 h3 h4
  · exact Or.inl ⟨_, rfl, h1⟩
  · exact Or.inl ⟨_, rfl, h2⟩
  · exact Or.inl ⟨_, rfl, h3⟩
  · exact Or.inl ⟨_, rfl, h4⟩
  · exact Or.inr rfl

/-- When its assertions hold `InitRecordSink` returns; it changes neither the
lifecycle state nor a session field, and it does not start the recording. -/
theorem InitRecordSink_some (h : RecordHandler) (m : MediaType) (cb : Bool) (pl : Pipeline)
    (hp : h.file_path_ ≠ "")
    (hfps : ∀ v, h.media_settings_.fps = some v → 0 < v)
    (hbr : ∀ v, h.media_settings_.video_bitrate = some v → 0 < v) :
    ∃ hr h1 log, InitRecordSink h true (some m) cb pl = some (hr, h1, log) ∧
      sameSession h h1 ∧ Command.StartRecord ∉ log := by
  obtain ⟨l1, hl1, hl1s, -⟩ := applyFrameRate_some _ hfps
  obtain ⟨l2, hl2, hl2s, -⟩ := applyVideoBitrate_some _ hbr
  unfold InitRecordSink
  simp only [hp, false_or, Bool.true_eq_false, reduceCtorEq, if_false]
  split
  · refine ⟨_, _, _, rfl, ?_, by simp⟩
    split
    · exact ⟨rfl, rfl, rfl, rfl, rfl, rfl, rfl⟩
    · exact sameSession_refl h
  · split
    · exact ⟨_, _, _, rfl, sameSession_refl h, by simp⟩
    · split
      · exact ⟨_, _, _, rfl, ⟨rfl, rfl, rfl, rfl, rfl, rfl, rfl⟩, by simp⟩
      · split
        · exact ⟨_, _, _, rfl, ⟨rfl, rfl, rfl, rfl, rfl, rfl, rfl⟩, by simp⟩
        · rcases BuildMediaTypeForVideoCapture_cases m
            (if cb = true then GUID.MFVideoFormat_ARGB32 else GUID.MFVideoFormat_H264) pl with
            ⟨hr, hv, -⟩ | hv
          · rw [hv]
            exact ⟨_, _, _, rfl, ⟨rfl, rfl, rfl, rfl, rfl, rfl, rfl⟩, by simp⟩
          · rw [hv]
            simp only [FAILED_S_OK, Bool.false_eq_true, if_false, hl1, hl2]
            split
            · exact ⟨_, _, _, rfl, ⟨rfl, rfl, rfl, rfl, rfl, rfl, rfl⟩, by simp [hl1s, hl2s]⟩
            · refine ⟨_, _, _, rfl, ?_⟩
              exact InitRecordSink_finish_sameSession h
                (RecordHandler.mk h.media_settings_ h.max_video_duration_ms_
                  h.recording_start_timestamp_us_ h.recording_duration_us_ h.file_path_
                  h.recording_state_ h.type_ true _)
                ⟨rfl, rfl, rfl, rfl, rfl, rfl, rfl⟩ cb pl
                _ ([Command.GetSink, Command.RemoveAllStreams] ++ l1 ++ l2 ++
                  [Command.AddVideoStream]) (by simp [hl1s, hl2s])

theorem InitRecordSink_finish_result {h0 h : RecordHandler} {cb : Bool} {pl : Pipeline}
    {hr0 : HRESULT} {log0 : List Command} {hr : HRESULT} {h1 : RecordHandler}
    {log : List Command} (H : InitRecordSink_finish h cb pl hr0 log0 = (hr, h1, log))
    (hs : sameSession h0 h) (hlog : Command.StartRecord ∉ log0) :
    sameSession h0 h1 ∧ Command.StartRecord ∉ log := by
  have := InitRecordSink_finish_sameSession h0 h hs cb pl hr0 log0 hlog
  rw [H] at this
  exact this

theorem applyFrameRate_mem (s : RecordSettings) (l : List Command)
    (hl : applyFrameRate s = some l) :
    Command.StartRecord ∉ l ∧ Command.AddAudioStream ∉ l := by
  unfold applyFrameRate at hl
  split at hl
  · simp only [Option.some.injEq] at hl
    subst hl
    simp
  · split at hl
    · simp only [Option.some.injEq] at hl
      subst hl
      simp
    · simp at hl

theorem applyVideoBitrate_mem (s : RecordSettings) (l : List Command)
    (hl : applyVideoBitrate s = some l) :
    Command.StartRecord ∉ l ∧ Command.AddAudioStream ∉ l := by
  unfold applyVideoBitrate at hl
  split at hl
  · simp only [Option.some.injEq] at hl
    subst hl
    simp
  · split at hl
    · simp only [Option.some.injEq] at hl
      subst hl
      simp
    · simp at hl

/-- Whenever `InitRecordSink` returns, its assertions held, the handler it returns
differs from the one it was given at most in the sink and the media type, and no
start command was issued. -/
theorem InitRecordSink_sameSession (h : RecordHandler) (ce : Bool) (bmt : Option MediaType)
    (cb : Bool) (pl : Pipeline) (hr : HRESULT) (h1 : RecordHandler) (log : List Command)
    (H : InitRecordSink h ce bmt cb pl = some (hr, h1, log)) :
    (h.file_path_ ≠ "" ∧ ce = true ∧ bmt ≠ none) ∧ sameSession h h1 ∧
      Command.StartRecord ∉ log := by
  unfold InitRecordSink at H
  split at H
  · simp at H
  · rename_i hass
    have hass1 : h.file_path_ ≠ "" ∧ ce = true ∧ bmt ≠ none := by
      refine ⟨fun hc => hass (Or.inl hc), ?_, fun hc => hass (Or.inr (Or.inr hc))⟩
      cases ce
      · exact absurd (Or.inr (Or.inl rfl)) hass
      · rfl
    refine ⟨hass1, ?_⟩
    split at H
    · simp only [Option.some.injEq, Prod.mk.injEq] at H
      obtain ⟨rfl, rfl, rfl⟩ := H
      refine ⟨?_, by simp⟩
      split
      · exact ⟨rfl, rfl, rfl, rfl, rfl, rfl, rfl⟩
      · exact sameSession_refl h
    · split at H
      · simp only [Option.some.injEq, Prod.mk.injEq] at H
        obtain ⟨rfl, rfl, rfl⟩ := H
        exact ⟨sameSession_refl h, by simp⟩
      · split at H
        · simp only [Option.some.injEq, Prod.mk.injEq] at H
          obtain ⟨rfl, rfl, rfl⟩ := H
          exact ⟨⟨rfl, rfl, rfl, rfl, rfl, rfl, rfl⟩, by simp⟩
        · split at H
          · simp only [Option.some.injEq, Prod.mk.injEq] at H
            obtain ⟨rfl, rfl, rfl⟩ := H
            exact ⟨⟨rfl, rfl, rfl, rfl, rfl, rfl, rfl⟩, by simp⟩
          · split at H
            · simp at H
            · simp only [Option.some.injEq, Prod.mk.injEq] at H
              obtain ⟨rfl, rfl, rfl⟩ := H
              exact ⟨⟨rfl, rfl, rfl, rfl, rfl, rfl, rfl⟩, by simp⟩
            · split at H
              · simp only [Option.some.injEq, Prod.mk.injEq] at H
                obtain ⟨rfl, rfl, rfl⟩ := H
                exact ⟨⟨rfl, rfl, rfl, rfl, rfl, rfl, rfl⟩, by simp⟩
              · split at H
                · rename_i l1 l2 hl1 hl2
                  have m1 := (applyFrameRate_mem _ _ hl1).1
                  have m2 := (applyVideoBitrate_mem _ _ hl2).1
                  split at H
                  · simp only [Option.some.injEq, Prod.mk.injEq] at H
                    obtain ⟨rfl, rfl, rfl⟩ := H
                    exact ⟨⟨rfl, rfl, rfl, rfl, rfl, rfl, rfl⟩, by simp [m1, m2]⟩
                  · simp only [Option.some.injEq] at H
                    exact InitRecordSink_finish_result H ⟨rfl, rfl, rfl, rfl, rfl, rfl, rfl⟩
                      (by simp [m1, m2])
                · simp at H

/-! ## StopRecord outside `Running` -/

/-- C1: from lifecycle state NotStarted or Starting, `StopRecord` returns the failure
status `E_FAIL` ("invalid operation"), issues no command to the capture engine, and
returns the handler unchanged: lifecycle state, path, type, duration limit, start
timestamp and accumulated duration are what they were. -/
theorem StopRecord_not_running (h : RecordHandler) (pl : Pipeline)
    (hs : h.recording_state_ = RecordState.kNotStarted ∨
      h.recording_state_ = RecordState.kStarting) :
    (StopRecord h pl).1 = E_FAIL ∧ FAILED (StopRecord h pl).1 = true ∧
      (StopRecord h pl).2.2 = [] ∧ (StopRecord h pl).2.1 = h := by
  have hne : h.recording_state_ ≠ RecordState.kRunning := by
    rcases hs with hs | hs <;> rw [hs] <;> decide
  unfold StopRecord
  rw [if_neg hne]
  exact ⟨rfl, rfl, rfl, rfl⟩

/-- Witness of C1: `StopRecord` on a session in state Starting. -/
theorem StopRecord_not_running_witness :
    (StopRecord (RecordHandler.session RecordState.kStarting) Pipeline.ok).1 = E_FAIL ∧
      FAILED (StopRecord (RecordHandler.session RecordState.kStarting) Pipeline.ok).1 = true ∧
      (StopRecord (RecordHandler.session RecordState.kStarting) Pipeline.ok).2.2 = [] ∧
      (StopRecord (RecordHandler.session RecordState.kStarting) Pipeline.ok).2.1 =
        RecordHandler.session RecordState.kStarting :=
  StopRecord_not_running (RecordHandler.session RecordState.kStarting) Pipeline.ok (Or.inr rfl)

/-! ## ShouldStopTimedRecording -/

/-- Within the range in which `limit * 1000` fits in 64 bits, the query is true
exactly when the type is timed, the state is Running, the limit is positive and the
accumulated duration has reached `limit * 1000`. -/
theorem ShouldStopTimedRecording_iff (h : RecordHandler)
    (hmax : h.max_video_duration_ms_ * 1000 < 2 ^ 64) :
    ShouldStopTimedRecording h = true ↔
      h.type_ = RecordingType.kTimed ∧ h.recording_state_ = RecordState.kRunning ∧
      0 < h.max_video_duration_ms_ ∧
      h.max_video_duration_ms_ * 1000 ≤ (h.recording_duration_us_ : Int) := by
  unfold ShouldStopTimedRecording
  simp only [Bool.and_eq_true, decide_eq_true_eq, gt_iff_lt, ge_iff_le, and_assoc]
  constructor
  · rintro ⟨h1, h2, h3, h4⟩
    refine ⟨h1, h2, h3, ?_⟩
    have hu := toU64_of_range h.max_video_duration_ms_ (by omega) (by omega)
    have hlt : toU64 h.max_video_duration_ms_ * 1000 < 2 ^ 64 := by omega
    rw [Nat.mod_eq_of_lt hlt] at h4
    omega
  · rintro ⟨h1, h2, h3, h4⟩
    refine ⟨h1, h2, h3, ?_⟩
    have hu := toU64_of_range h.max_video_duration_ms_ (by omega) (by omega)
    have hlt : toU64 h.max_video_duration_ms_ * 1000 < 2 ^ 64 := by omega
    rw [Nat.mod_eq_of_lt hlt]
    omega

/-- The query is false outside Running, for a type other than timed and for a
non-positive limit, whatever the accumulated duration. -/
theorem ShouldStopTimedRecording_false (h : RecordHandler)
    (hc : h.recording_state_ ≠ RecordState.kRunning ∨ h.type_ ≠ RecordingType.kTimed ∨
      h.max_video_duration_ms_ ≤ 0) :
    ShouldStopTimedRecording h = false := by
  unfold ShouldStopTimedRecording
  rcases hc with hc | hc | hc
  · simp [hc]
  · simp [hc]
  · have : ¬ (h.max_video_duration_ms_ > 0) := by omega
    simp [this]

/-- C2 (failing input): a timed recording of `out.mp4` with the limit
`2^61` ms is started and confirmed. No time has been recorded (accumulated duration
0, far below `limit * 1000`), and yet `ShouldStopTimedRecording` answers true: the
64-bit product `limit * 1000` has wrapped around to 0. -/
theorem ShouldStopTimedRecording_wraps :
    ∃ h, run (RecordHandler.init RecordSettings.example)
        [Op.StartRecord "out.mp4" 2305843009213693952 true (some MediaType.example) false
          Pipeline.ok, Op.OnRecordStarted] = some h ∧
      h.type_ = RecordingType.kTimed ∧ h.recording_state_ = RecordState.kRunning ∧
      h.max_video_duration_ms_ = 2305843009213693952 ∧ h.recording_duration_us_ = 0 ∧
      ¬ (h.max_video_duration_ms_ * 1000 ≤ (h.recording_duration_us_ : Int)) ∧
      ShouldStopTimedRecording h = true :=
  ⟨_, rfl, rfl, rfl, rfl, rfl, by decide, by decide⟩

/-! ## OnRecordStopped -/

/-- C3: called in lifecycle state Stopping, `OnRecordStopped` yields state NotStarted
with an empty path, start timestamp -1, accumulated duration 0, duration limit -1,
no media type and recording type none (settings and sink are kept); called in any
other state it returns the handler unchanged. -/
theorem OnRecordStopped_spec (h : RecordHandler) :
    (h.recording_state_ = RecordState.kStopping →
      (OnRecordStopped h).recording_state_ = RecordState.kNotStarted ∧
      (OnRecordStopped h).file_path_ = "" ∧
      (OnRecordStopped h).recording_start_timestamp_us_ = -1 ∧
      (OnRecordStopped h).recording_duration_us_ = 0 ∧
      (OnRecordStopped h).max_video_duration_ms_ = -1 ∧
      (OnRecordStopped h).video_record_media_type_ = none ∧
      (OnRecordStopped h).type_ = RecordingType.kNone ∧
      (OnRecordStopped h).media_settings_ = h.media_settings_ ∧
      (OnRecordStopped h).record_sink_ = h.record_sink_) ∧
    (h.recording_state_ ≠ RecordState.kStopping → OnRecordStopped h = h) := by
  constructor
  · intro hs
    unfold OnRecordStopped
    rw [if_pos hs]
    exact ⟨rfl, rfl, rfl, rfl, rfl, rfl, rfl, rfl, rfl⟩
  · intro hs
    unfold OnRecordStopped
    rw [if_neg hs]

/-- Witness of C3: `OnRecordStopped` on a session in state Stopping and on one in state Running. -/
theorem OnRecordStopped_spec_witness :
    ((OnRecordStopped (RecordHandler.session RecordState.kStopping)).recording_state_ =
        RecordState.kNotStarted ∧
      (OnRecordStopped (RecordHandler.session RecordState.kStopping)).file_path_ = "" ∧
      (OnRecordStopped (RecordHandler.session RecordState.kStopping)).recording_start_timestamp_us_
        = -1 ∧
      (OnRecordStopped (RecordHandler.session RecordState.kStopping)).recording_duration_us_ = 0 ∧
      (OnRecordStopped (RecordHandler.session RecordState.kStopping)).max_video_duration_ms_
        = -1 ∧
      (OnRecordStopped (RecordHandler.session RecordState.kStopping)).video_record_media_type_
        = none ∧
      (OnRecordStopped (RecordHandler.session RecordState.kStopping)).type_ =
        RecordingType.kNone ∧
      (OnRecordStopped (RecordHandler.session RecordState.kStopping)).media_settings_ =
        (RecordHandler.session RecordState.kStopping).media_settings_ ∧
      (OnRecordStopped (RecordHandler.session RecordState.kStopping)).record_sink_ =
        (RecordHandler.session RecordState.kStopping).record_sink_) ∧
    OnRecordStopped (RecordHandler.session RecordState.kRunning) =
      RecordHandler.session RecordState.kRunning :=
  ⟨(OnRecordStopped_spec (RecordHandler.session RecordState.kStopping)).1 rfl,
    (OnRecordStopped_spec (RecordHandler.session RecordState.kRunning)).2 (by decide)⟩

/-! ## StartRecord -/

/-- `StartRecord` in terms of the outcome of the sink configuration. -/
theorem StartRecord_of_sink (h : RecordHandler) (file_path : String) (max_duration : Int)
    (ce : Bool) (bmt : Option MediaType) (cb : Bool) (pl : Pipeline) (hr : HRESULT)
    (h1 : RecordHandler) (log : List Command)
    (H : InitRecordSink (StartRecord_assign h file_path max_duration) ce bmt cb pl =
      some (hr, h1, log)) :
    StartRecord h file_path max_duration ce bmt cb pl =
      some (if FAILED hr then (hr, h1, log)
        else (pl.StartRecord, { h1 with recording_state_ := RecordState.kStarting },
          log ++ [Command.StartRecord])) := by
  obtain ⟨⟨hp, hce, hb⟩, -, -⟩ := InitRecordSink_sameSession _ _ _ _ _ _ _ _ H
  have hp1 : file_path ≠ "" := hp
  unfold StartRecord
  have hass : ¬ (file_path = "" ∨ ce = false ∨ bmt = none) := by
    rintro (h0 | h0 | h0)
    · exact hp1 h0
    · rw [hce] at h0
      exact Bool.noConfusion h0
    · exact hb h0
  rw [if_neg hass, H]
  dsimp only
  split <;> rfl

/-- C6 (amended): when the sink configuration fails, `StartRecord` returns its
failure code, issues no start command and leaves the lifecycle state unchanged; the
session fields are not restored: they hold the values of the rejected request
(path and limit as given, type by the sign of the limit, start timestamp -1,
accumulated duration 0). -/
theorem StartRecord_sink_failure (h : RecordHandler) (file_path : String) (max_duration : Int)
    (ce : Bool) (bmt : Option MediaType) (cb : Bool) (pl : Pipeline) (hr : HRESULT)
    (h1 : RecordHandler) (log : List Command)
    (H : InitRecordSink (StartRecord_assign h file_path max_duration) ce bmt cb pl =
      some (hr, h1, log))
    (hf : FAILED hr = true) :
    StartRecord h file_path max_duration ce bmt cb pl = some (hr, h1, log) ∧
      Command.StartRecord ∉ log ∧
      h1.recording_state_ = h.recording_state_ ∧
      h1.file_path_ = file_path ∧
      h1.type_ = (if max_duration < 0 then RecordingType.kContinuous
        else RecordingType.kTimed) ∧
      h1.max_video_duration_ms_ = max_duration ∧
      h1.recording_start_timestamp_us_ = -1 ∧
      h1.recording_duration_us_ = 0 := by
  obtain ⟨-, ⟨-, e2, e3, e4, e5, e6, e7⟩, hlog⟩ := InitRecordSink_sameSession _ _ _ _ _ _ _ _ H
  refine ⟨?_, hlog, e6, e5, e7, e2, e3, e4⟩
  rw [StartRecord_of_sink _ _ _ _ _ _ _ _ _ _ H, if_pos hf]

/-- Witness of C6: a continuous recording of `next.mp4` requested on an idle handler that still holds the fields of a timed session, with `GetSink` failing. -/
theorem StartRecord_sink_failure_witness :
    StartRecord (RecordHandler.session RecordState.kNotStarted) "next.mp4" (-1) true
        (some MediaType.example) true Pipeline.noSink =
      some (E_FAIL,
        StartRecord_assign (RecordHandler.session RecordState.kNotStarted) "next.mp4" (-1),
        [Command.GetSink]) ∧
      Command.StartRecord ∉ [Command.GetSink] ∧
      (StartRecord_assign (RecordHandler.session RecordState.kNotStarted) "next.mp4"
        (-1)).recording_state_ = (RecordHandler.session RecordState.kNotStarted).recording_state_ ∧
      (StartRecord_assign (RecordHandler.session RecordState.kNotStarted) "next.mp4"
        (-1)).file_path_ = "next.mp4" ∧
      (StartRecord_assign (RecordHandler.session RecordState.kNotStarted) "next.mp4"
        (-1)).type_ = (if (-1 : Int) < 0 then RecordingType.kContinuous
          else RecordingType.kTimed) ∧
      (StartRecord_assign (RecordHandler.session RecordState.kNotStarted) "next.mp4"
        (-1)).max_video_duration_ms_ = -1 ∧
      (StartRecord_assign (RecordHandler.session RecordState.kNotStarted) "next.mp4"
        (-1)).recording_start_timestamp_us_ = -1 ∧
      (StartRecord_assign (RecordHandler.session RecordState.kNotStarted) "next.mp4"
        (-1)).recording_duration_us_ = 0 :=
  StartRecord_sink_failure (RecordHandler.session RecordState.kNotStarted) "next.mp4" (-1) true
    (some MediaType.example) true Pipeline.noSink E_FAIL _ [Command.GetSink] rfl rfl

/-- C6 (counterexample): on a fresh handler (empty path, type none, limit -1)
`StartRecord("out.mp4", 5000, ...)` fails in the sink configuration (`GetSink`
fails) with `E_FAIL` and without a start command, and the lifecycle state is still
NotStarted, but path, recording type and duration limit no longer have the values
they had before the call. -/
theorem StartRecord_sink_failure_commits :
    ∃ h1 log, StartRecord (RecordHandler.init RecordSettings.example) "out.mp4" 5000 true
        (some MediaType.example) false Pipeline.noSink = some (E_FAIL, h1, log) ∧
      FAILED E_FAIL = true ∧ Command.StartRecord ∉ log ∧
      h1.recording_state_ = (RecordHandler.init RecordSettings.example).recording_state_ ∧
      h1.file_path_ ≠ (RecordHandler.init RecordSettings.example).file_path_ ∧
      h1.type_ ≠ (RecordHandler.init RecordSettings.example).type_ ∧
      h1.max_video_duration_ms_ ≠
        (RecordHandler.init RecordSettings.example).max_video_duration_ms_ :=
  ⟨_, _, rfl, rfl, by decide, rfl, by decide, by decide, by decide⟩

/-! ## Audio negotiation -/

/-- Sink configuration of a file recording built from scratch, after the video
stream was registered, when the audio negotiation fails: the audio stream is
skipped and the status is that of `SetOutputFileName`. -/
theorem InitRecordSink_audio_failure (h : RecordHandler) (m : MediaType) (pl : Pipeline)
    (hp : h.file_path_ ≠ "") (hsink : h.record_sink_ = false)
    (hfps : ∀ v, h.media_settings_.fps = some v → 0 < v)
    (hbr : ∀ v, h.media_settings_.video_bitrate = some v → 0 < v)
    (hneg : FAILED (BuildMediaTypeForAudioCapture pl) = true)
    (h1 : FAILED pl.GetSink = false) (h2 : FAILED pl.As = false)
    (h3 : FAILED pl.RemoveAllStreams = false) (h4 : FAILED pl.video_MFCreateMediaType = false)
    (h5 : FAILED pl.video_CopyAllItems = false) (h6 : FAILED pl.video_SetGUID = false)
    (h7 : FAILED pl.video_SetUINT32 = false) (h8 : FAILED pl.video_AddStream = false) :
    ∃ h' log, InitRecordSink h true (some m) false pl = some (pl.SetOutputFileName, h', log) ∧
      Command.AddAudioStream ∉ log ∧ Command.SetOutputFileName h.file_path_ ∈ log := by
  obtain ⟨l1, hl1, -, hl1s⟩ := applyFrameRate_some _ hfps
  obtain ⟨l2, hl2, -, hl2s⟩ := applyVideoBitrate_some _ hbr
  have hsuc : SUCCEEDED (BuildMediaTypeForAudioCapture pl) = false := by
    rw [SUCCEEDED_eq_not_FAILED, hneg]
    rfl
  unfold InitRecordSink BuildMediaTypeForVideoCapture InitRecordSink_finish
  simp only [hp, hsink, h1, h2, h3, h4, h5, h6, h7, h8, hl1, hl2, hsuc, FAILED_S_OK, false_or,
    Bool.true_eq_false, Bool.false_eq_true, reduceCtorEq, if_false, false_and, and_true,
    and_false]
  by_cases ha : h.media_settings_.record_audio_ = true
  · simp only [ha, if_true, h8, Bool.false_eq_true, if_false]
    exact ⟨_, _, rfl, by simp [hl1s, hl2s], by simp⟩
  · simp only [ha, if_false]
    exact ⟨_, _, rfl, by simp [hl1s, hl2s], by simp⟩

/-- C5 (amended): for a file recording whose sink is built from scratch and whose
video stream was registered, a failed negotiation of the audio output format does
not fail the sink configuration: no audio stream is added, the output file name is
set, and `StartRecord` enters Starting and issues the start command whenever
setting the file name succeeds (when it fails, that status is returned and the
state is unchanged). -/
theorem StartRecord_audio_failure (h : RecordHandler) (file_path : String) (max_duration : Int)
    (m : MediaType) (pl : Pipeline)
    (hp : file_path ≠ "") (hsink : h.record_sink_ = false)
    (hfps : ∀ v, h.media_settings_.fps = some v → 0 < v)
    (hbr : ∀ v, h.media_settings_.video_bitrate = some v → 0 < v)
    (hneg : FAILED (BuildMediaTypeForAudioCapture pl) = true)
    (h1 : FAILED pl.GetSink = false) (h2 : FAILED pl.As = false)
    (h3 : FAILED pl.RemoveAllStreams = false) (h4 : FAILED pl.video_MFCreateMediaType = false)
    (h5 : FAILED pl.video_CopyAllItems = false) (h6 : FAILED pl.video_SetGUID = false)
    (h7 : FAILED pl.video_SetUINT32 = false) (h8 : FAILED pl.video_AddStream = false) :
    ∃ hr h' log, StartRecord h file_path max_duration true (some m) false pl =
        some (hr, h', log) ∧
      Command.AddAudioStream ∉ log ∧ Command.SetOutputFileName file_path ∈ log ∧
      (FAILED pl.SetOutputFileName = false →
        hr = pl.StartRecord ∧ h'.recording_state_ = RecordState.kStarting ∧
        Command.StartRecord ∈ log) ∧
      (FAILED pl.SetOutputFileName = true →
        hr = pl.SetOutputFileName ∧ h'.recording_state_ = h.recording_state_ ∧
        Command.StartRecord ∉ log) := by
  obtain ⟨h', log, H, hna, hout⟩ := InitRecordSink_audio_failure
    (StartRecord_assign h file_path max_duration) m pl hp hsink hfps hbr hneg h1 h2 h3 h4 h5 h6
    h7 h8
  obtain ⟨-, ⟨-, -, -, -, -, e6, -⟩, hlog⟩ := InitRecordSink_sameSession _ _ _ _ _ _ _ _ H
  have hS := StartRecord_of_sink _ _ _ _ _ _ _ _ _ _ H
  have hout1 : Command.SetOutputFileName file_path ∈ log := hout
  by_cases hf : FAILED pl.SetOutputFileName = true
  · rw [if_pos hf] at hS
    refine ⟨_, _, _, hS, hna, hout1, ?_, ?_⟩
    · intro hc
      rw [hf] at hc
      exact Bool.noConfusion hc
    · intro _
      exact ⟨rfl, e6, hlog⟩
  · rw [if_neg hf] at hS
    refine ⟨_, _, _, hS, ?_, ?_, ?_, ?_⟩
    · simpa using hna
    · exact List.mem_append_left _ hout1
    · intro _
      exact ⟨rfl, rfl, by simp⟩
    · intro hc
      exact absurd hc hf

/-- Witness of C5: a file recording on a fresh handler on a pipeline without an audio encoder. -/
theorem StartRecord_audio_failure_witness :
    ∃ hr h' log, StartRecord (RecordHandler.init RecordSettings.example) "out.mp4" (-1) true
        (some MediaType.example) false Pipeline.noAudio = some (hr, h', log) ∧
      Command.AddAudioStream ∉ log ∧ Command.SetOutputFileName "out.mp4" ∈ log ∧
      (FAILED Pipeline.noAudio.SetOutputFileName = false →
        hr = Pipeline.noAudio.StartRecord ∧ h'.recording_state_ = RecordState.kStarting ∧
        Command.StartRecord ∈ log) ∧
      (FAILED Pipeline.noAudio.SetOutputFileName = true →
        hr = Pipeline.noAudio.SetOutputFileName ∧
        h'.recording_state_ = (RecordHandler.init RecordSettings.example).recording_state_ ∧
        Command.StartRecord ∉ log) :=
  StartRecord_audio_failure (RecordHandler.init RecordSettings.example) "out.mp4" (-1)
    MediaType.example Pipeline.noAudio (by decide) rfl (by decide) (by decide) rfl rfl rfl rfl
    rfl rfl rfl rfl rfl

/-- C5 (counterexample): a file recording on a fresh handler (no sink yet, audio
enabled) on a pipeline without an audio encoder. The audio negotiation fails
with `E_FAIL`, and yet `StartRecord` returns `S_OK`, issues the start command and
enters Starting, with a sink that carries the video stream only. -/
theorem StartRecord_without_audio_stream :
    FAILED (BuildMediaTypeForAudioCapture Pipeline.noAudio) = true ∧
    (RecordHandler.init RecordSettings.example).record_sink_ = false ∧
    (RecordHandler.init RecordSettings.example).media_settings_.record_audio_ = true ∧
    ∃ h' log, StartRecord (RecordHandler.init RecordSettings.example) "out.mp4" 5000 true
        (some MediaType.example) false Pipeline.noAudio = some (S_OK, h', log) ∧
      h'.recording_state_ = RecordState.kStarting ∧
      log = [Command.GetSink, Command.RemoveAllStreams, Command.AddVideoStream,
        Command.SetOutputFileName "out.mp4", Command.StartRecord] :=
  ⟨rfl, rfl, rfl, _, _, rfl, rfl, rfl⟩

/-! ## UpdateRecordingTime -/

/-- `UpdateRecordingTime` changes only the start timestamp and the duration. -/
theorem UpdateRecordingTime_fields (h : RecordHandler) (t : Nat) :
    (UpdateRecordingTime h t).recording_state_ = h.recording_state_ ∧
      (UpdateRecordingTime h t).type_ = h.type_ ∧
      (UpdateRecordingTime h t).max_video_duration_ms_ = h.max_video_duration_ms_ ∧
      (UpdateRecordingTime h t).file_path_ = h.file_path_ :=
  ⟨rfl, rfl, rfl, rfl⟩

/-- The first update after a reset latches a timestamp below `2^63` and records 0. -/
theorem UpdateRecordingTime_latch (h : RecordHandler) (t : Nat)
    (hs : h.recording_start_timestamp_us_ < 0) (ht : t < 2 ^ 63) :
    (UpdateRecordingTime h t).recording_start_timestamp_us_ = t ∧
      (UpdateRecordingTime h t).recording_duration_us_ = 0 := by
  unfold UpdateRecordingTime
  simp only [hs, if_true, toI64_of_lt t ht]
  refine ⟨trivial, ?_⟩
  rw [toU64_of_range (t : Int) (by omega) (by omega)]
  simp [toU64]

/-- With a start timestamp `s` latched, an update at `t ≥ s` records `t - s`. -/
theorem UpdateRecordingTime_latched (h : RecordHandler) (t : Nat)
    (hs : 0 ≤ h.recording_start_timestamp_us_)
    (hst : h.recording_start_timestamp_us_ ≤ t) (ht : t < 2 ^ 64) :
    (UpdateRecordingTime h t).recording_start_timestamp_us_ =
        h.recording_start_timestamp_us_ ∧
      ((UpdateRecordingTime h t).recording_duration_us_ : Int) =
        t - h.recording_start_timestamp_us_ := by
  have hn : ¬ h.recording_start_timestamp_us_ < 0 := by omega
  unfold UpdateRecordingTime
  simp only [hn, if_false]
  refine ⟨trivial, ?_⟩
  rw [toU64_of_range h.recording_start_timestamp_us_ hs (by omega)]
  exact toU64_of_range _ (by omega) (by omega)

/-! ## The timed auto-stop scenario -/

/-- C4 (amended): for every non-empty path, every limit `L` with `0 < L` and
`1000 * L < 2^64`, and a successful sink configuration, `StartRecord` leaves the
state Starting with type timed and `OnRecordStarted` then gives Running; after
`UpdateRecordingTime(t0)` and `UpdateRecordingTime(t1)` with `t0 < 2^63` and
`t0 ≤ t1 < 2^64`, `ShouldStopTimedRecording` is true exactly when
`t1 - t0 ≥ 1000 * L`. -/
theorem timed_auto_stop (h : RecordHandler) (file_path : String) (L : Int) (m : MediaType)
    (cb : Bool) (pl : Pipeline) (hr : HRESULT) (h1 : RecordHandler) (log : List Command)
    (t0 t1 : Nat)
    (hL : 0 < L) (hL2 : 1000 * L < 2 ^ 64)
    (H : InitRecordSink (StartRecord_assign h file_path L) true (some m) cb pl =
      some (hr, h1, log))
    (hok : FAILED hr = false)
    (ht0 : t0 < 2 ^ 63) (h01 : t0 ≤ t1) (ht1 : t1 < 2 ^ 64) :
    ∃ h2 log2, StartRecord h file_path L true (some m) cb pl = some (pl.StartRecord, h2, log2) ∧
      h2.recording_state_ = RecordState.kStarting ∧ h2.type_ = RecordingType.kTimed ∧
      (OnRecordStarted h2).recording_state_ = RecordState.kRunning ∧
      (ShouldStopTimedRecording
          (UpdateRecordingTime (UpdateRecordingTime (OnRecordStarted h2) t0) t1) = true ↔
        1000 * L ≤ (t1 : Int) - t0) := by
  obtain ⟨-, ⟨-, e2, e3, -, -, -, e7⟩, -⟩ := InitRecordSink_sameSession _ _ _ _ _ _ _ _ H
  have hS := StartRecord_of_sink _ _ _ _ _ _ _ _ _ _ H
  rw [hok] at hS
  simp only [Bool.false_eq_true, if_false] at hS
  have hnL : ¬ L < 0 := by omega
  have e7a : h1.type_ = RecordingType.kTimed := by
    rw [e7]
    show (if L < 0 then RecordingType.kContinuous else RecordingType.kTimed) = _
    rw [if_neg hnL]
  have e2a : h1.max_video_duration_ms_ = L := e2
  have e3a : h1.recording_start_timestamp_us_ = -1 := e3
  refine ⟨_, _, hS, rfl, e7a, ?_, ?_⟩
  · unfold OnRecordStarted
    simp
  · have hrun : OnRecordStarted { h1 with recording_state_ := RecordState.kStarting } =
        { h1 with recording_state_ := RecordState.kRunning } := by
      unfold OnRecordStarted
      simp
    rw [hrun]
    have hA := UpdateRecordingTime_latch { h1 with recording_state_ := RecordState.kRunning } t0
      (by show h1.recording_start_timestamp_us_ < 0; omega) ht0
    have hB := UpdateRecordingTime_latched
      (UpdateRecordingTime { h1 with recording_state_ := RecordState.kRunning } t0) t1
      (by rw [hA.1]; omega) (by rw [hA.1]; omega) ht1
    rw [hA.1] at hB
    have hF1 := UpdateRecordingTime_fields
      (UpdateRecordingTime { h1 with recording_state_ := RecordState.kRunning } t0) t1
    have hF0 := UpdateRecordingTime_fields { h1 with recording_state_ := RecordState.kRunning } t0
    rw [ShouldStopTimedRecording_iff _ (by rw [hF1.2.2.1, hF0.2.2.1]; show h1.max_video_duration_ms_ * 1000 < 2 ^ 64; omega)]
    rw [hF1.1, hF1.2.1, hF1.2.2.1, hF0.1, hF0.2.1, hF0.2.2.1, hB.2]
    show h1.type_ = RecordingType.kTimed ∧ RecordState.kRunning = RecordState.kRunning ∧
      0 < h1.max_video_duration_ms_ ∧ h1.max_video_duration_ms_ * 1000 ≤ (t1 : Int) - t0 ↔ _
    constructor
    · rintro ⟨-, -, -, h4⟩
      omega
    · intro h4
      exact ⟨e7a, rfl, by omega, by omega⟩

/-- Witness of C4: path `out.mp4`, L = 5000, t0 = 0, t1 = 5000001. -/
theorem timed_auto_stop_witness :
    ∃ h2 log2, StartRecord (RecordHandler.init RecordSettings.example) "out.mp4" 5000 true
        (some MediaType.example) false Pipeline.ok = some (Pipeline.ok.StartRecord, h2, log2) ∧
      h2.recording_state_ = RecordState.kStarting ∧ h2.type_ = RecordingType.kTimed ∧
      (OnRecordStarted h2).recording_state_ = RecordState.kRunning ∧
      (ShouldStopTimedRecording
          (UpdateRecordingTime (UpdateRecordingTime (OnRecordStarted h2) 0) 5000001) = true ↔
        1000 * (5000 : Int) ≤ ((5000001 : Nat) : Int) - ((0 : Nat) : Int)) :=
  timed_auto_stop (RecordHandler.init RecordSettings.example) "out.mp4" 5000 MediaType.example
    false Pipeline.ok S_OK _ _ 0 5000001 (by decide) (by decide) rfl rfl (by decide) (by decide)
    (by decide)

/-- C4 (counterexample): the scenario of the claim with path `out.mp4` and a
successful sink configuration. (1) With L = 5000, t0 = 2^63 and
t1 = 2^63 + 5000001 the two updates are 5000001 us apart, at least 1000 * L, and
`ShouldStopTimedRecording` is false: t0 is negative as an `int64_t`, so the start
timestamp is latched again by the second update. (2) With L = 5000, t0 = 100 and
t1 = 50 the difference t1 - t0 is below 1000 * L, and `ShouldStopTimedRecording`
is true: the unsigned difference is `2^64 - 50`. (3) With L = 2^61 and
t0 = t1 = 0 nothing has been recorded, less than 1000 * L, and
`ShouldStopTimedRecording` is true. -/
theorem timed_auto_stop_counterexample :
    (∃ h3, run (RecordHandler.init RecordSettings.example)
        [Op.StartRecord "out.mp4" 5000 true (some MediaType.example) false Pipeline.ok,
          Op.OnRecordStarted, Op.UpdateRecordingTime 9223372036854775808,
          Op.UpdateRecordingTime 9223372036859775809] = some h3 ∧
      h3.recording_state_ = RecordState.kRunning ∧ h3.type_ = RecordingType.kTimed ∧
      1000 * (5000 : Int) ≤ (9223372036859775809 : Int) - 9223372036854775808 ∧
      ShouldStopTimedRecording h3 = false) ∧
    (∃ h3, run (RecordHandler.init RecordSettings.example)
        [Op.StartRecord "out.mp4" 5000 true (some MediaType.example) false Pipeline.ok,
          Op.OnRecordStarted, Op.UpdateRecordingTime 100, Op.UpdateRecordingTime 50] = some h3 ∧
      h3.recording_state_ = RecordState.kRunning ∧ h3.type_ = RecordingType.kTimed ∧
      (50 : Int) - 100 < 1000 * (5000 : Int) ∧
      ShouldStopTimedRecording h3 = true) ∧
    (∃ h3, run (RecordHandler.init RecordSettings.example)
        [Op.StartRecord "out.mp4" 2305843009213693952 true (some MediaType.example) false
          Pipeline.ok,
          Op.OnRecordStarted, Op.UpdateRecordingTime 0, Op.UpdateRecordingTime 0] = some h3 ∧
      h3.recording_state_ = RecordState.kRunning ∧ h3.type_ = RecordingType.kTimed ∧
      (0 : Int) - 0 < 1000 * (2305843009213693952 : Int) ∧
      ShouldStopTimedRecording h3 = true) :=
  ⟨⟨_, rfl, rfl, rfl, by decide, by decide⟩, ⟨_, rfl, rfl, rfl, by decide, by decide⟩,
    ⟨_, rfl, rfl, rfl, by decide, by decide⟩⟩

/-! ## OnSample -/

/-- C7 (amended): for an attached observer that reports ready and a non-null
sample whose conversion to a contiguous buffer succeeds and whose buffer lock fails,
`OnSample` calls `UpdateCaptureTime` once, with the sample time divided by 10, never
calls `UpdateBuffer`, still calls `Unlock`, and returns the status of `Unlock`. -/
theorem OnSample_lock_failure (obs : Observer) (s : Sample) (b : Buffer)
    (hready : obs.IsReadyForSample = true)
    (hconv : SUCCEEDED s.ConvertToContiguousBuffer = true) (hbuf : s.buffer = some b)
    (hlock : FAILED b.Lock = true) :
    (OnSample (some obs) (some s)).1 = b.Unlock ∧
      (OnSample (some obs) (some s)).2 =
        [Call.UpdateCaptureTime (toU64 (Int.tdiv s.sample_time 10)), Call.IsReadyForSample,
          Call.ConvertToContiguousBuffer, Call.Lock, Call.Unlock] ∧
      (∀ n, Call.UpdateBuffer n ∉ (OnSample (some obs) (some s)).2) ∧
      (0 ≤ s.sample_time → s.sample_time < 2 ^ 63 →
        (toU64 (Int.tdiv s.sample_time 10) : Int) = s.sample_time / 10) := by
  have hl : SUCCEEDED b.Lock = false := by
    rw [SUCCEEDED_eq_not_FAILED, hlock]
    rfl
  have e : OnSample (some obs) (some s) = (b.Unlock,
      [Call.UpdateCaptureTime (toU64 (Int.tdiv s.sample_time 10)), Call.IsReadyForSample,
        Call.ConvertToContiguousBuffer, Call.Lock, Call.Unlock]) := by
    unfold OnSample
    simp only [hready, Bool.true_eq_false, if_false, hbuf, hconv, if_true, hl,
      Bool.false_eq_true]
  rw [e]
  refine ⟨rfl, rfl, by simp, ?_⟩
  intro h0 h1
  have hd : Int.tdiv s.sample_time 10 = s.sample_time / 10 :=
    Int.tdiv_eq_ediv h0 (by norm_num)
  rw [hd]
  exact toU64_of_range _ (by omega) (by omega)

/-- Witness of C7: a ready observer and a sample whose buffer lock fails. -/
theorem OnSample_lock_failure_witness :
    (OnSample (some { IsReadyForSample := true }) (some Sample.lockFails)).1 =
        Buffer.lockFails.Unlock ∧
      (OnSample (some { IsReadyForSample := true }) (some Sample.lockFails)).2 =
        [Call.UpdateCaptureTime (toU64 (Int.tdiv Sample.lockFails.sample_time 10)),
          Call.IsReadyForSample, Call.ConvertToContiguousBuffer, Call.Lock, Call.Unlock] ∧
      (∀ n, Call.UpdateBuffer n ∉
        (OnSample (some { IsReadyForSample := true }) (some Sample.lockFails)).2) ∧
      (0 ≤ Sample.lockFails.sample_time → Sample.lockFails.sample_time < 2 ^ 63 →
        (toU64 (Int.tdiv Sample.lockFails.sample_time 10) : Int) =
          Sample.lockFails.sample_time / 10) :=
  OnSample_lock_failure { IsReadyForSample := true } Sample.lockFails Buffer.lockFails rfl rfl
    rfl rfl

/-- C7 (counterexample): the observer is ready, the conversion succeeds, `Lock`
fails with `E_FAIL` and `Unlock` returns `S_OK`. `OnSample` reports the capture time
5 and skips `UpdateBuffer`, but it returns `S_OK`, not the failure code of the lock. -/
theorem OnSample_returns_unlock_status :
    FAILED Buffer.lockFails.Lock = true ∧
      OnSample (some { IsReadyForSample := true }) (some Sample.lockFails) =
        (S_OK, [Call.UpdateCaptureTime 5, Call.IsReadyForSample, Call.ConvertToContiguousBuffer,
          Call.Lock, Call.Unlock]) ∧
      (OnSample (some { IsReadyForSample := true }) (some Sample.lockFails)).1 ≠
        Buffer.lockFails.Lock :=
  ⟨rfl, rfl, by decide⟩

/-! ## Monotonicity of the accumulated duration -/

/-- An update on a handler without a latched start timestamp records 0. -/
theorem UpdateRecordingTime_unlatched (h : RecordHandler) (t : Nat)
    (hs : h.recording_start_timestamp_us_ < 0) (ht : t < 2 ^ 64) :
    (UpdateRecordingTime h t).recording_duration_us_ = 0 := by
  unfold UpdateRecordingTime
  simp only [hs, if_true]
  rw [toU64_toI64, Nat.mod_eq_of_lt ht]
  simp [toU64]

/-- With a start timestamp `s` latched, an update at `t < s` records the wrapped
difference `t - s + 2^64`. -/
theorem UpdateRecordingTime_wrapped (h : RecordHandler) (t : Nat)
    (hs : 0 ≤ h.recording_start_timestamp_us_) (hs1 : h.recording_start_timestamp_us_ < 2 ^ 64)
    (hst : (t : Int) < h.recording_start_timestamp_us_) :
    (UpdateRecordingTime h t).recording_start_timestamp_us_ =
        h.recording_start_timestamp_us_ ∧
      ((UpdateRecordingTime h t).recording_duration_us_ : Int) =
        t - h.recording_start_timestamp_us_ + 2 ^ 64 := by
  have hn : ¬ h.recording_start_timestamp_us_ < 0 := by omega
  unfold UpdateRecordingTime
  simp only [hn, if_false]
  refine ⟨trivial, ?_⟩
  rw [toU64_of_range h.recording_start_timestamp_us_ hs hs1]
  have e : ((t : Int) - h.recording_start_timestamp_us_) % 2 ^ 64 =
      (t : Int) - h.recording_start_timestamp_us_ + 2 ^ 64 := by
    rw [← Int.add_emod_self]
    exact Int.emod_eq_of_lt (by omega) (by omega)
  unfold toU64
  rw [e]
  omega

/-- C9 (amended): for every handler in state Running whose start timestamp is an
`int64_t` and all timestamps `t1 < t2 < 2^64`, the accumulated duration after
`UpdateRecordingTime(t2)` is at least the accumulated duration after the preceding
`UpdateRecordingTime(t1)` exactly when the latched start timestamp does not lie
after `t1` and at or before `t2`; in particular whenever no start timestamp is
latched yet or the latched one is at most `t1`. -/
theorem UpdateRecordingTime_monotone (h : RecordHandler) (t1 t2 : Nat)
    (hrun : h.recording_state_ = RecordState.kRunning)
    (h12 : t1 < t2) (ht2 : t2 < 2 ^ 64)
    (hs : h.recording_start_timestamp_us_ < 2 ^ 63) :
    (UpdateRecordingTime h t1).recording_state_ = RecordState.kRunning ∧
      ((UpdateRecordingTime h t1).recording_duration_us_ ≤
          (UpdateRecordingTime (UpdateRecordingTime h t1) t2).recording_duration_us_ ↔
        ¬ ((t1 : Int) < h.recording_start_timestamp_us_ ∧
          h.recording_start_timestamp_us_ ≤ (t2 : Int))) := by
  refine ⟨hrun, ?_⟩
  by_cases hneg : h.recording_start_timestamp_us_ < 0
  · rw [UpdateRecordingTime_unlatched h t1 hneg (by omega)]
    constructor
    · intro _
      omega
    · intro _
      exact Nat.zero_le _
  · by_cases hle : h.recording_start_timestamp_us_ ≤ t1
    · have hA := UpdateRecordingTime_latched h t1 (by omega) hle (by omega)
      have hB := UpdateRecordingTime_latched (UpdateRecordingTime h t1) t2
        (by rw [hA.1]; omega) (by rw [hA.1]; omega) ht2
      rw [hA.1] at hB
      have k1 := hA.2
      have k2 := hB.2
      constructor
      · intro _
        omega
      · intro _
        omega
    · have hA := UpdateRecordingTime_wrapped h t1 (by omega) (by omega) (by omega)
      have k1 := hA.2
      by_cases hle2 : h.recording_start_timestamp_us_ ≤ t2
      · have hB := UpdateRecordingTime_latched (UpdateRecordingTime h t1) t2
          (by rw [hA.1]; omega) (by rw [hA.1]; omega) ht2
        rw [hA.1] at hB
        have k2 := hB.2
        constructor
        · intro _
          omega
        · intro hc
          exact absurd ⟨by omega, hle2⟩ hc
      · have hB := UpdateRecordingTime_wrapped (UpdateRecordingTime h t1) t2
          (by rw [hA.1]; omega) (by rw [hA.1]; omega) (by rw [hA.1]; omega)
        rw [hA.1] at hB
        have k2 := hB.2
        constructor
        · intro _
          omega
        · intro _
          omega

/-- Witness of C9: start latched at 100, t1 = 150, t2 = 5000100. -/
theorem UpdateRecordingTime_monotone_witness :
    (UpdateRecordingTime (RecordHandler.session RecordState.kRunning) 150).recording_state_ =
        RecordState.kRunning ∧
      ((UpdateRecordingTime (RecordHandler.session RecordState.kRunning)
          150).recording_duration_us_ ≤
        (UpdateRecordingTime (UpdateRecordingTime (RecordHandler.session RecordState.kRunning) 150)
          5000100).recording_duration_us_ ↔
        ¬ (((150 : Nat) : Int) <
            (RecordHandler.session RecordState.kRunning).recording_start_timestamp_us_ ∧
          (RecordHandler.session RecordState.kRunning).recording_start_timestamp_us_ ≤
            ((5000100 : Nat) : Int))) :=
  UpdateRecordingTime_monotone (RecordHandler.session RecordState.kRunning) 150 5000100 rfl
    (by decide) (by decide) (by decide)

/-- C9 (counterexample): a recording is started and confirmed and its start
timestamp latched at 100. In state Running the timestamps t1 = 50 < t2 = 150 are
delivered: the accumulated duration is `2^64 - 50` after t1 and 50 after t2. -/
theorem UpdateRecordingTime_not_monotone :
    ∃ h, run (RecordHandler.init RecordSettings.example)
        [Op.StartRecord "out.mp4" 5000 true (some MediaType.example) false Pipeline.ok,
          Op.OnRecordStarted, Op.UpdateRecordingTime 100] = some h ∧
      h.recording_state_ = RecordState.kRunning ∧
      (UpdateRecordingTime h 50).recording_duration_us_ = 18446744073709551566 ∧
      (UpdateRecordingTime (UpdateRecordingTime h 50) 150).recording_duration_us_ = 50 ∧
      ¬ ((UpdateRecordingTime h 50).recording_duration_us_ ≤
        (UpdateRecordingTime (UpdateRecordingTime h 50) 150).recording_duration_us_) :=
  ⟨_, rfl, rfl, by decide, by decide, by decide⟩

/-! ## The lifecycle state machine -/

/-- When its assertions hold `StartRecord` returns; the handler it returns has the
timing fields reset, and its lifecycle state is the one before the call (failed sink
configuration) or Starting. -/
theorem StartRecord_some (h : RecordHandler) (file_path : String) (max_duration : Int)
    (ce : Bool) (bmt : Option MediaType) (cb : Bool) (pl : Pipeline)
    (hass : (Op.StartRecord file_path max_duration ce bmt cb pl).asserts h) :
    ∃ r, StartRecord h file_path max_duration ce bmt cb pl = some r ∧
      (r.2.1.recording_state_ = h.recording_state_ ∨
        r.2.1.recording_state_ = RecordState.kStarting) ∧
      r.2.1.recording_start_timestamp_us_ = -1 ∧ r.2.1.recording_duration_us_ = 0 := by
  obtain ⟨hp, hce, hb, hfps, hbr⟩ := hass
  subst hce
  cases bmt with
  | none => exact absurd rfl hb
  | some m =>
    obtain ⟨hr, h1, log, H, ⟨-, -, e3, e4, -, e6, -⟩, -⟩ :=
      InitRecordSink_some (StartRecord_assign h file_path max_duration) m cb pl hp hfps hbr
    have hS := StartRecord_of_sink _ _ _ _ _ _ _ _ _ _ H
    refine ⟨_, hS, ?_⟩
    split
    · exact ⟨Or.inl e6, e3, e4⟩
    · exact ⟨Or.inr rfl, e3, e4⟩

/-- C8 (amended): for every handler and every operation whose assertions hold, with
any arguments and any hardware outcome: after StopRecord, OnRecordStarted,
OnRecordStopped or UpdateRecordingTime the lifecycle state equals the state before
or is its successor along NotStarted, Starting, Running, Stopping, NotStarted, and
it is Starting only if it was Starting before; OnRecordStarted changes the state
only from Starting, to Running; StartRecord has no guard on the state: its sink
configuration returns a status, and the state afterwards is the state before when
that status is a failure and Starting when it is not, from whatever state
StartRecord is called in. -/
theorem lifecycle_step (h : RecordHandler) (op : Op) (hass : op.asserts h) :
    ∃ h', op.apply h = some h' ∧
      (op.isStartRecord = false →
        (h'.recording_state_ = h.recording_state_ ∨
          h'.recording_state_ = h.recording_state_.next) ∧
        (h'.recording_state_ = RecordState.kStarting →
          h.recording_state_ = RecordState.kStarting)) ∧
      (op.isStartRecord = true →
        h'.recording_state_ = h.recording_state_ ∨
          h'.recording_state_ = RecordState.kStarting) ∧
      (op = Op.OnRecordStarted → h'.recording_state_ ≠ h.recording_state_ →
        h.recording_state_ = RecordState.kStarting ∧
          h'.recording_state_ = RecordState.kRunning) ∧
      (∀ file_path max_duration ce bmt cb pl,
        op = Op.StartRecord file_path max_duration ce bmt cb pl →
        ∃ hr h1 log, InitRecordSink (StartRecord_assign h file_path max_duration) ce bmt cb
            pl = some (hr, h1, log) ∧
          (FAILED hr = true → h'.recording_state_ = h.recording_state_) ∧
          (FAILED hr = false → h'.recording_state_ = RecordState.kStarting)) := by
  cases op with
  | StartRecord file_path max_duration ce bmt cb pl =>
    obtain ⟨hp, hce, hb, hfps, hbr⟩ := hass
    subst hce
    cases bmt with
    | none => exact absurd rfl hb
    | some m =>
      obtain ⟨hr, h1, log, H, ⟨-, -, -, -, -, e6, -⟩, -⟩ :=
        InitRecordSink_some (StartRecord_assign h file_path max_duration) m cb pl hp hfps hbr
      have e6a : h1.recording_state_ = h.recording_state_ := e6
      have hS := StartRecord_of_sink _ _ _ _ _ _ _ _ _ _ H
      by_cases hf : FAILED hr = true
      · rw [if_pos hf] at hS
        have happ : Op.apply h (Op.StartRecord file_path max_duration true (some m) cb pl) =
            some h1 := by
          show (StartRecord h file_path max_duration true (some m) cb pl).map
            (fun r => r.2.1) = _
          rw [hS]
          rfl
        refine ⟨h1, happ, fun hc => Bool.noConfusion hc, fun _ => Or.inl e6a,
          fun hc => Op.noConfusion hc, ?_⟩
        intro fp md ce1 bmt1 cb1 pl1 hc
        cases hc
        refine ⟨hr, h1, log, H, fun _ => e6a, fun hc => ?_⟩
        rw [hf] at hc
        exact Bool.noConfusion hc
      · rw [if_neg hf] at hS
        have happ : Op.apply h (Op.StartRecord file_path max_duration true (some m) cb pl) =
            some { h1 with recording_state_ := RecordState.kStarting } := by
          show (StartRecord h file_path max_duration true (some m) cb pl).map
            (fun r => r.2.1) = _
          rw [hS]
          rfl
        refine ⟨_, happ, fun hc => Bool.noConfusion hc, fun _ => Or.inr rfl,
          fun hc => Op.noConfusion hc, ?_⟩
        intro fp md ce1 bmt1 cb1 pl1 hc
        cases hc
        exact ⟨hr, h1, log, H, fun hc => absurd hc hf, fun _ => rfl⟩
  | StopRecord pl =>
    refine ⟨_, rfl, fun _ => ?_, fun hc => Bool.noConfusion hc, fun hc => Op.noConfusion hc,
      fun _ _ _ _ _ _ hc => Op.noConfusion hc⟩
    unfold StopRecord
    split
    · rename_i hrun
      refine ⟨Or.inr ?_, fun hc => RecordState.noConfusion hc⟩
      rw [hrun]
      rfl
    · exact ⟨Or.inl rfl, fun hc => hc⟩
  | OnRecordStarted =>
    refine ⟨_, rfl, fun _ => ?_, fun hc => Bool.noConfusion hc, fun _ => ?_,
      fun _ _ _ _ _ _ hc => Op.noConfusion hc⟩
    · unfold OnRecordStarted
      split
      · rename_i hst
        refine ⟨Or.inr ?_, fun _ => hst⟩
        rw [hst]
        rfl
      · exact ⟨Or.inl rfl, fun hc => hc⟩
    · unfold OnRecordStarted
      split
      · rename_i hst
        exact fun _ => ⟨hst, rfl⟩
      · exact fun hc => absurd rfl hc
  | OnRecordStopped =>
    refine ⟨_, rfl, fun _ => ?_, fun hc => Bool.noConfusion hc, fun hc => Op.noConfusion hc,
      fun _ _ _ _ _ _ hc => Op.noConfusion hc⟩
    unfold OnRecordStopped
    split
    · rename_i hst
      refine ⟨Or.inr ?_, fun hc => RecordState.noConfusion hc⟩
      rw [hst]
      rfl
    · exact ⟨Or.inl rfl, fun hc => hc⟩
  | UpdateRecordingTime timestamp =>
    exact ⟨_, rfl, fun _ => ⟨Or.inl rfl, fun hc => hc⟩, fun hc => Bool.noConfusion hc,
      fun hc => Op.noConfusion hc, fun _ _ _ _ _ _ hc => Op.noConfusion hc⟩

/-- Witness of C8, one instance for each kind of operation: `StartRecord` with a
successful sink configuration on a session in state Running, `StartRecord` with
`GetSink` failing on a fresh handler, `StopRecord` in Running, `OnRecordStarted` in
Starting, `OnRecordStopped` in Stopping and `UpdateRecordingTime` in Running. -/
theorem lifecycle_step_witness :
    (∃ h', Op.apply (RecordHandler.session RecordState.kRunning) (Op.StartRecord "next.mp4" 5000 true (some MediaType.example) false Pipeline.ok) = some h' ∧
      (Op.isStartRecord (Op.StartRecord "next.mp4" 5000 true (some MediaType.example) false Pipeline.ok) = false →
        (h'.recording_state_ = (RecordHandler.session RecordState.kRunning).recording_state_ ∨
          h'.recording_state_ = (RecordHandler.session RecordState.kRunning).recording_state_.next) ∧
        (h'.recording_state_ = RecordState.kStarting →
          (RecordHandler.session RecordState.kRunning).recording_state_ = RecordState.kStarting)) ∧
      (Op.isStartRecord (Op.StartRecord "next.mp4" 5000 true (some MediaType.example) false Pipeline.ok) = true →
        h'.recording_state_ = (RecordHandler.session RecordState.kRunning).recording_state_ ∨
          h'.recording_state_ = RecordState.kStarting) ∧
      ((Op.StartRecord "next.mp4" 5000 true (some MediaType.example) false Pipeline.ok) = Op.OnRecordStarted →
        h'.recording_state_ ≠ (RecordHandler.session RecordState.kRunning).recording_state_ →
        (RecordHandler.session RecordState.kRunning).recording_state_ = RecordState.kStarting ∧
          h'.recording_state_ = RecordState.kRunning) ∧
      (∀ file_path max_duration ce bmt cb pl,
        (Op.StartRecord "next.mp4" 5000 true (some MediaType.example) false Pipeline.ok) = Op.StartRecord file_path max_duration ce bmt cb pl →
        ∃ hr h1 log, InitRecordSink (StartRecord_assign (RecordHandler.session RecordState.kRunning) file_path max_duration) ce bmt cb
            pl = some (hr, h1, log) ∧
          (FAILED hr = true → h'.recording_state_ = (RecordHandler.session RecordState.kRunning).recording_state_) ∧
          (FAILED hr = false → h'.recording_state_ = RecordState.kStarting))) ∧
    (∃ h', Op.apply (RecordHandler.init RecordSettings.example) (Op.StartRecord "out.mp4" 5000 true (some MediaType.example) false Pipeline.noSink) = some h' ∧
      (Op.isStartRecord (Op.StartRecord "out.mp4" 5000 true (some MediaType.example) false Pipeline.noSink) = false →
        (h'.recording_state_ = (RecordHandler.init RecordSettings.example).recording_state_ ∨
          h'.recording_state_ = (RecordHandler.init RecordSettings.example).recording_state_.next) ∧
        (h'.recording_state_ = RecordState.kStarting →
          (RecordHandler.init RecordSettings.example).recording_state_ = RecordState.kStarting)) ∧
      (Op.isStartRecord (Op.StartRecord "out.mp4" 5000 true (some MediaType.example) false Pipeline.noSink) = true →
        h'.recording_state_ = (RecordHandler.init RecordSettings.example).recording_state_ ∨
          h'.recording_state_ = RecordState.kStarting) ∧
      ((Op.StartRecord "out.mp4" 5000 true (some MediaType.example) false Pipeline.noSink) = Op.OnRecordStarted →
        h'.recording_state_ ≠ (RecordHandler.init RecordSettings.example).recording_state_ →
        (RecordHandler.init RecordSettings.example).recording_state_ = RecordState.kStarting ∧
          h'.recording_state_ = RecordState.kRunning) ∧
      (∀ file_path max_duration ce bmt cb pl,
        (Op.StartRecord "out.mp4" 5000 true (some MediaType.example) false Pipeline.noSink) = Op.StartRecord file_path max_duration ce bmt cb pl →
        ∃ hr h1 log, InitRecordSink (StartRecord_assign (RecordHandler.init RecordSettings.example) file_path max_duration) ce bmt cb
            pl = some (hr, h1, log) ∧
          (FAILED hr = true → h'.recording_state_ = (RecordHandler.init RecordSettings.example).recording_state_) ∧
          (FAILED hr = false → h'.recording_state_ = RecordState.kStarting))) ∧
    (∃ h', Op.apply (RecordHandler.session RecordState.kRunning) (Op.StopRecord Pipeline.ok) = some h' ∧
      (Op.isStartRecord (Op.StopRecord Pipeline.ok) = false →
        (h'.recording_state_ = (RecordHandler.session RecordState.kRunning).recording_state_ ∨
          h'.recording_state_ = (RecordHandler.session RecordState.kRunning).recording_state_.next) ∧
        (h'.recording_state_ = RecordState.kStarting →
          (RecordHandler.session RecordState.kRunning).recording_state_ = RecordState.kStarting)) ∧
      (Op.isStartRecord (Op.StopRecord Pipeline.ok) = true →
        h'.recording_state_ = (RecordHandler.session RecordState.kRunning).recording_state_ ∨
          h'.recording_state_ = RecordState.kStarting) ∧
      ((Op.StopRecord Pipeline.ok) = Op.OnRecordStarted →
        h'.recording_state_ ≠ (RecordHandler.session RecordState.kRunning).recording_state_ →
        (RecordHandler.session RecordState.kRunning).recording_state_ = RecordState.kStarting ∧
          h'.recording_state_ = RecordState.kRunning) ∧
      (∀ file_path max_duration ce bmt cb pl,
        (Op.StopRecord Pipeline.ok) = Op.StartRecord file_path max_duration ce bmt cb pl →
        ∃ hr h1 log, InitRecordSink (StartRecord_assign (RecordHandler.session RecordState.kRunning) file_path max_duration) ce bmt cb
            pl = some (hr, h1, log) ∧
          (FAILED hr = true → h'.recording_state_ = (RecordHandler.session RecordState.kRunning).recording_state_) ∧
          (FAILED hr = false → h'.recording_state_ = RecordState.kStarting))) ∧
    (∃ h', Op.apply (RecordHandler.session RecordState.kStarting) Op.OnRecordStarted = some h' ∧
      (Op.isStartRecord Op.OnRecordStarted = false →
        (h'.recording_state_ = (RecordHandler.session RecordState.kStarting).recording_state_ ∨
          h'.recording_state_ = (RecordHandler.session RecordState.kStarting).recording_state_.next) ∧
        (h'.recording_state_ = RecordState.kStarting →
          (RecordHandler.session RecordState.kStarting).recording_state_ = RecordState.kStarting)) ∧
      (Op.isStartRecord Op.OnRecordStarted = true →
        h'.recording_state_ = (RecordHandler.session RecordState.kStarting).recording_state_ ∨
          h'.recording_state_ = RecordState.kStarting) ∧
      (Op.OnRecordStarted = Op.OnRecordStarted →
        h'.recording_state_ ≠ (RecordHandler.session RecordState.kStarting).recording_state_ →
        (RecordHandler.session RecordState.kStarting).recording_state_ = RecordState.kStarting ∧
          h'.recording_state_ = RecordState.kRunning) ∧
      (∀ file_path max_duration ce bmt cb pl,
        Op.OnRecordStarted = Op.StartRecord file_path max_duration ce bmt cb pl →
        ∃ hr h1 log, InitRecordSink (StartRecord_assign (RecordHandler.session RecordState.kStarting) file_path max_duration) ce bmt cb
            pl = some (hr, h1, log) ∧
          (FAILED hr = true → h'.recording_state_ = (RecordHandler.session RecordState.kStarting).recording_state_) ∧
          (FAILED hr = false → h'.recording_state_ = RecordState.kStarting))) ∧
    (∃ h', Op.apply (RecordHandler.session RecordState.kStopping) Op.OnRecordStopped = some h' ∧
      (Op.isStartRecord Op.OnRecordStopped = false →
        (h'.recording_state_ = (RecordHandler.session RecordState.kStopping).recording_state_ ∨
          h'.recording_state_ = (RecordHandler.session RecordState.kStopping).recording_state_.next) ∧
        (h'.recording_state_ = RecordState.kStarting →
          (RecordHandler.session RecordState.kStopping).recording_state_ = RecordState.kStarting)) ∧
      (Op.isStartRecord Op.OnRecordStopped = true →
        h'.recording_state_ = (RecordHandler.session RecordState.kStopping).recording_state_ ∨
          h'.recording_state_ = RecordState.kStarting) ∧
      (Op.OnRecordStopped = Op.OnRecordStarted →
        h'.recording_state_ ≠ (RecordHandler.session RecordState.kStopping).recording_state_ →
        (RecordHandler.session RecordState.kStopping).recording_state_ = RecordState.kStarting ∧
          h'.recording_state_ = RecordState.kRunning) ∧
      (∀ file_path max_duration ce bmt cb pl,
        Op.OnRecordStopped = Op.StartRecord file_path max_duration ce bmt cb pl →
        ∃ hr h1 log, InitRecordSink (StartRecord_assign (RecordHandler.session RecordState.kStopping) file_path max_duration) ce bmt cb
            pl = some (hr, h1, log) ∧
          (FAILED hr = true → h'.recording_state_ = (RecordHandler.session RecordState.kStopping).recording_state_) ∧
          (FAILED hr = false → h'.recording_state_ = RecordState.kStarting))) ∧
    (∃ h', Op.apply (RecordHandler.session RecordState.kRunning) (Op.UpdateRecordingTime 150) = some h' ∧
      (Op.isStartRecord (Op.UpdateRecordingTime 150) = false →
        (h'.recording_state_ = (RecordHandler.session RecordState.kRunning).recording_state_ ∨
          h'.recording_state_ = (RecordHandler.session RecordState.kRunning).recording_state_.next) ∧
        (h'.recording_state_ = RecordState.kStarting →
          (RecordHandler.session RecordState.kRunning).recording_state_ = RecordState.kStarting)) ∧
      (Op.isStartRecord (Op.UpdateRecordingTime 150) = true →
        h'.recording_state_ = (RecordHandler.session RecordState.kRunning).recording_state_ ∨
          h'.recording_state_ = RecordState.kStarting) ∧
      ((Op.UpdateRecordingTime 150) = Op.OnRecordStarted →
        h'.recording_state_ ≠ (RecordHandler.session RecordState.kRunning).recording_state_ →
        (RecordHandler.session RecordState.kRunning).recording_state_ = RecordState.kStarting ∧
          h'.recording_state_ = RecordState.kRunning) ∧
      (∀ file_path max_duration ce bmt cb pl,
        (Op.UpdateRecordingTime 150) = Op.StartRecord file_path max_duration ce bmt cb pl →
        ∃ hr h1 log, InitRecordSink (StartRecord_assign (RecordHandler.session RecordState.kRunning) file_path max_duration) ce bmt cb
            pl = some (hr, h1, log) ∧
          (FAILED hr = true → h'.recording_state_ = (RecordHandler.session RecordState.kRunning).recording_state_) ∧
          (FAILED hr = false → h'.recording_state_ = RecordState.kStarting))) :=
  ⟨lifecycle_step (RecordHandler.session RecordState.kRunning) (Op.StartRecord "next.mp4" 5000 true (some MediaType.example) false Pipeline.ok)
      ⟨by decide, rfl, fun hc => Option.noConfusion hc, fun _ hv => Option.noConfusion hv,
      fun _ hv => Option.noConfusion hv⟩,
    lifecycle_step (RecordHandler.init RecordSettings.example) (Op.StartRecord "out.mp4" 5000 true (some MediaType.example) false Pipeline.noSink)
      ⟨by decide, rfl, fun hc => Option.noConfusion hc, fun _ hv => Option.noConfusion hv,
      fun _ hv => Option.noConfusion hv⟩,
    lifecycle_step (RecordHandler.session RecordState.kRunning) (Op.StopRecord Pipeline.ok)
      trivial,
    lifecycle_step (RecordHandler.session RecordState.kStarting) Op.OnRecordStarted
      trivial,
    lifecycle_step (RecordHandler.session RecordState.kStopping) Op.OnRecordStopped
      trivial,
    lifecycle_step (RecordHandler.session RecordState.kRunning) (Op.UpdateRecordingTime 150)
      trivial⟩

/-- C8 (counterexample): a recording is started and confirmed, so the state is
Running. A second `StartRecord` with valid arguments and a pipeline in which every
call succeeds then moves the state from Running to Starting, which is neither
Running nor its successor Stopping. -/
theorem StartRecord_from_running :
    ∃ h2 h3, run (RecordHandler.init RecordSettings.example)
        [Op.StartRecord "out.mp4" 5000 true (some MediaType.example) false Pipeline.ok,
          Op.OnRecordStarted] = some h2 ∧
      h2.recording_state_ = RecordState.kRunning ∧
      (Op.StartRecord "next.mp4" 5000 true (some MediaType.example) false Pipeline.ok).apply h2 =
        some h3 ∧
      h3.recording_state_ = RecordState.kStarting ∧
      h3.recording_state_ ≠ h2.recording_state_ ∧
      h3.recording_state_ ≠ h2.recording_state_.next :=
  ⟨_, _, rfl, rfl, rfl, rfl, by decide, by decide⟩

/-! ## Timing fields along a sequence of operations -/

/-- Operations other than `StartRecord` and `OnRecordStopped`: how the start
timestamp and the accumulated duration evolve along a sequence of them. -/
theorem run_timing (ops : List Op) : ∀ h : RecordHandler, (∀ op ∈ ops, op.resets = false) →
    ∃ h', run h ops = some h' ∧
      (0 ≤ h.recording_start_timestamp_us_ →
        h'.recording_start_timestamp_us_ = h.recording_start_timestamp_us_) ∧
      (h.recording_start_timestamp_us_ < 0 →
        (∀ s, firstLatch ops = some s → h'.recording_start_timestamp_us_ = s) ∧
        (firstLatch ops = none → h'.recording_start_timestamp_us_ < 0)) ∧
      (∀ t, lastUpdate ops = some t → h'.recording_duration_us_ =
        toU64 ((t : Int) - (toU64 h'.recording_start_timestamp_us_ : Int))) ∧
      (lastUpdate ops = none → h'.recording_duration_us_ = h.recording_duration_us_ ∧
        h'.recording_start_timestamp_us_ = h.recording_start_timestamp_us_) := by
  induction ops with
  | nil =>
    intro h _
    refine ⟨h, rfl, fun _ => rfl, fun _ => ⟨fun s hs => ?_, fun _ => by assumption⟩,
      fun t ht => ?_, fun _ => ⟨rfl, rfl⟩⟩
    · simp [firstLatch] at hs
    · simp [lastUpdate] at ht
  | cons op ops ih =>
    intro h hall
    have hops : ∀ o ∈ ops, o.resets = false := fun o ho => hall o (List.mem_cons_of_mem _ ho)
    have hop : op.resets = false := hall op (List.mem_cons_self _ _)
    cases op with
    | StartRecord file_path max_duration ce bmt cb pl => exact Bool.noConfusion hop
    | OnRecordStopped => exact Bool.noConfusion hop
    | StopRecord pl =>
      have e1 : (StopRecord h pl).2.1.recording_start_timestamp_us_ =
          h.recording_start_timestamp_us_ := by
        unfold StopRecord
        split <;> rfl
      have e2 : (StopRecord h pl).2.1.recording_duration_us_ = h.recording_duration_us_ := by
        unfold StopRecord
        split <;> rfl
      obtain ⟨h', hr, k1, k2, k3, k4⟩ := ih (StopRecord h pl).2.1 hops
      rw [e1] at k1 k2 k4
      rw [e2] at k4
      have hl : lastUpdate (Op.StopRecord pl :: ops) = lastUpdate ops := by
        cases hlu : lastUpdate ops <;> simp [lastUpdate, hlu, Op.timestamp]
      refine ⟨h', hr, k1, k2, ?_, ?_⟩
      · rw [hl]
        exact k3
      · rw [hl]
        exact k4
    | OnRecordStarted =>
      have e1 : (OnRecordStarted h).recording_start_timestamp_us_ =
          h.recording_start_timestamp_us_ := by
        unfold OnRecordStarted
        split <;> rfl
      have e2 : (OnRecordStarted h).recording_duration_us_ = h.recording_duration_us_ := by
        unfold OnRecordStarted
        split <;> rfl
      obtain ⟨h', hr, k1, k2, k3, k4⟩ := ih (OnRecordStarted h) hops
      rw [e1] at k1 k2 k4
      rw [e2] at k4
      have hl : lastUpdate (Op.OnRecordStarted :: ops) = lastUpdate ops := by
        cases hlu : lastUpdate ops <;> simp [lastUpdate, hlu, Op.timestamp]
      refine ⟨h', hr, k1, k2, ?_, ?_⟩
      · rw [hl]
        exact k3
      · rw [hl]
        exact k4
    | UpdateRecordingTime timestamp =>
      obtain ⟨h', hr, k1, k2, k3, k4⟩ := ih (UpdateRecordingTime h timestamp) hops
      have hd : (UpdateRecordingTime h timestamp).recording_duration_us_ =
          toU64 ((timestamp : Int) -
            (toU64 (UpdateRecordingTime h timestamp).recording_start_timestamp_us_ : Int)) := rfl
      refine ⟨h', hr, ?_, ?_, ?_, ?_⟩
      · intro h0
        have hn : ¬ h.recording_start_timestamp_us_ < 0 := by omega
        have e : (UpdateRecordingTime h timestamp).recording_start_timestamp_us_ =
            h.recording_start_timestamp_us_ := by
          unfold UpdateRecordingTime
          simp only [hn, if_false]
        rw [e] at k1
        exact k1 h0
      · intro hneg
        have e : (UpdateRecordingTime h timestamp).recording_start_timestamp_us_ =
            toI64 timestamp := by
          unfold UpdateRecordingTime
          simp only [hneg, if_true]
        rw [e] at k1 k2
        by_cases hl : 0 ≤ toI64 timestamp
        · have hf : firstLatch (Op.UpdateRecordingTime timestamp :: ops) =
              some (toI64 timestamp) := by
            simp [firstLatch, hl]
          rw [hf]
          refine ⟨fun s hs => ?_, fun hc => Option.noConfusion hc⟩
          rw [k1 hl]
          exact Option.some.inj hs
        · have hf : firstLatch (Op.UpdateRecordingTime timestamp :: ops) = firstLatch ops := by
            simp [firstLatch, hl]
          rw [hf]
          exact k2 (by omega)
      · intro t ht
        cases hlu : lastUpdate ops with
        | some t' =>
          have : lastUpdate (Op.UpdateRecordingTime timestamp :: ops) = some t' := by
            simp [lastUpdate, hlu, Op.timestamp]
          rw [this] at ht
          rw [← Option.some.inj ht]
          exact k3 t' hlu
        | none =>
          have : lastUpdate (Op.UpdateRecordingTime timestamp :: ops) = some timestamp := by
            simp [lastUpdate, hlu, Op.timestamp]
          rw [this] at ht
          rw [← Option.some.inj ht, (k4 hlu).1, (k4 hlu).2]
          exact hd
      · intro hn
        cases hlu : lastUpdate ops <;> simp [lastUpdate, hlu, Op.timestamp] at hn

/-- C10 (amended): over every sequence of operations that begins with a
`StartRecord` whose assertions hold and goes on without another `StartRecord` or
`OnRecordStopped`, the timing fields do not depend on the lifecycle state: the
start timestamp at the end is the first timestamp below `2^63` passed to
`UpdateRecordingTime`, in whatever state it was received, and is negative when
there is none; the accumulated duration is the 64-bit difference of the last
timestamp passed to `UpdateRecordingTime` and the start timestamp, and is 0 (with
start timestamp -1) when there was no update. -/
theorem timing_of_session (h : RecordHandler) (start : Op) (ops : List Op)
    (hst : start.isStartRecord = true) (hass : start.asserts h)
    (hops : ∀ op ∈ ops, op.resets = false) :
    ∃ h', run h (start :: ops) = some h' ∧
      (∀ s, firstLatch ops = some s → h'.recording_start_timestamp_us_ = s) ∧
      (firstLatch ops = none → h'.recording_start_timestamp_us_ < 0) ∧
      (∀ t, lastUpdate ops = some t → h'.recording_duration_us_ =
        toU64 ((t : Int) - (toU64 h'.recording_start_timestamp_us_ : Int))) ∧
      (lastUpdate ops = none →
        h'.recording_duration_us_ = 0 ∧ h'.recording_start_timestamp_us_ = -1) := by
  cases start with
  | StartRecord file_path max_duration ce bmt cb pl =>
    obtain ⟨r, hr, -, e3, e4⟩ := StartRecord_some h file_path max_duration ce bmt cb pl hass
    obtain ⟨h', hrun, -, k2, k3, k4⟩ := run_timing ops r.2.1 hops
    have hneg : r.2.1.recording_start_timestamp_us_ < 0 := by
      rw [e3]
      decide
    refine ⟨h', ?_, (k2 hneg).1, (k2 hneg).2, k3, fun hn => ?_⟩
    · show ((StartRecord h file_path max_duration ce bmt cb pl).map (fun r => r.2.1)).bind
        (fun h1 => run h1 ops) = some h'
      rw [hr]
      exact hrun
    · rw [(k4 hn).1, (k4 hn).2]
      exact ⟨e4, e3⟩
  | StopRecord pl => exact Bool.noConfusion hst
  | OnRecordStarted => exact Bool.noConfusion hst
  | OnRecordStopped => exact Bool.noConfusion hst
  | UpdateRecordingTime timestamp => exact Bool.noConfusion hst

/-- Witness of C10: a start followed by an update at 100, the start confirmation and an update at 250. -/
theorem timing_of_session_witness :
    ∃ h', run (RecordHandler.init RecordSettings.example)
        (Op.StartRecord "out.mp4" 5000 true (some MediaType.example) false Pipeline.ok ::
          [Op.UpdateRecordingTime 100, Op.OnRecordStarted, Op.UpdateRecordingTime 250]) =
        some h' ∧
      (∀ s, firstLatch [Op.UpdateRecordingTime 100, Op.OnRecordStarted,
          Op.UpdateRecordingTime 250] = some s → h'.recording_start_timestamp_us_ = s) ∧
      (firstLatch [Op.UpdateRecordingTime 100, Op.OnRecordStarted,
          Op.UpdateRecordingTime 250] = none → h'.recording_start_timestamp_us_ < 0) ∧
      (∀ t, lastUpdate [Op.UpdateRecordingTime 100, Op.OnRecordStarted,
          Op.UpdateRecordingTime 250] = some t → h'.recording_duration_us_ =
        toU64 ((t : Int) - (toU64 h'.recording_start_timestamp_us_ : Int))) ∧
      (lastUpdate [Op.UpdateRecordingTime 100, Op.OnRecordStarted,
          Op.UpdateRecordingTime 250] = none →
        h'.recording_duration_us_ = 0 ∧ h'.recording_start_timestamp_us_ = -1) :=
  timing_of_session (RecordHandler.init RecordSettings.example)
    (Op.StartRecord "out.mp4" 5000 true (some MediaType.example) false Pipeline.ok)
    [Op.UpdateRecordingTime 100, Op.OnRecordStarted, Op.UpdateRecordingTime 250] rfl
    ⟨by decide, rfl, fun hc => Option.noConfusion hc, fun _ hv => Option.noConfusion hv,
      fun _ hv => Option.noConfusion hv⟩
    (by decide)

/-- C10 (counterexample): after a successful `StartRecord` the state is Starting,
the start timestamp -1 and the accumulated duration 0. Two updates, at 100 and at
250, arrive before the start is confirmed: the state is still Starting, and the
start timestamp has been latched at 100 and the accumulated duration is 150. -/
theorem UpdateRecordingTime_while_starting :
    ∃ h1 h2, run (RecordHandler.init RecordSettings.example)
        [Op.StartRecord "out.mp4" 5000 true (some MediaType.example) false Pipeline.ok] =
        some h1 ∧
      h1.recording_state_ = RecordState.kStarting ∧
      h1.recording_start_timestamp_us_ = -1 ∧ h1.recording_duration_us_ = 0 ∧
      run h1 [Op.UpdateRecordingTime 100, Op.UpdateRecordingTime 250] = some h2 ∧
      h2.recording_state_ = RecordState.kStarting ∧
      h2.recording_start_timestamp_us_ = 100 ∧ h2.recording_duration_us_ = 150 :=
  ⟨_, _, rfl, rfl, rfl, rfl, rfl, rfl, by decide, by decide⟩

end camera_windows
